import Mathlib

/-!
Verification of the carpet-layout interactive geometry editor.

The definitions below are a shallow embedding of the TypeScript sources:
  * `src/src/store/historyStore.ts` (the bounded undo/redo store), and
  * the canvas component (`handleMouseMove`, `handleMouseUp`,
    `handleKeyboardDown`, `handlePassiveWheel` and their helpers).

Modelling conventions:
  * JS numbers are embedded as `ℚ`; `Math.sqrt` is embedded by `ratSqrt`
    (exact on perfect squares) and comparisons `Math.sqrt e < c` with
    `c ≥ 0` are embedded as `e < c^2`, which is equivalent over the reals.
  * React `useState` fields become fields of an explicit state record.
    Inside one event handler the component reads state through the
    render-scope constants captured when the handler was created, and
    every `setX(e)` call replaces the field with a value computed from
    those captured constants while `setX(fn)` applies `fn` to the current
    field value.  The embedding threads the state record sequentially and
    keeps explicit `...0` names for the captured values, which reproduces
    exactly this behaviour (including later writes overwriting earlier
    ones computed from the same captured values).
  * `generateId` (Math.random-based) is modelled as a counter that is
    threaded through the state; only freshness matters to the code.
-/

namespace CarpetLayout

/-- A 2-D point `{x, y}`. -/
structure Point where
  x : ℚ
  y : ℚ
deriving DecidableEq, Repr

/-- One entry of the `bezierPoints` array of a shape. -/
structure BezierPoint where
  x : ℚ
  y : ℚ
  controlX1 : Option ℚ := none
  controlY1 : Option ℚ := none
  controlX2 : Option ℚ := none
  controlY2 : Option ℚ := none
deriving DecidableEq, Repr

/-- `ShapeProps` from the canvas component / `historyStore.ts`. -/
structure ShapeProps where
  id : String
  type : String
  x : ℚ
  y : ℚ
  width : Option ℚ := none
  height : Option ℚ := none
  radius : Option ℚ := none
  points : Option (List ℚ) := none
  bezierPoints : Option (List BezierPoint) := none
  stroke : String
  strokeWidth : ℚ
  fill : String
  draggable : Bool
  text : Option String := none
deriving DecidableEq, Repr

/-- `GuidelineProps`: an ephemeral measurement guide.  The human-readable
label string (`formatMeasurement` / `Math.atan2` rendering) is
floating-point display formatting; no claim refers to it, and the parts
of it that involve `Math.atan2` are not exactly representable over `ℚ`,
so generated guides carry `none` for `text`/`textPosition`. -/
structure GuidelineProps where
  points : List ℚ
  text : Option String := none
  textPosition : Option Point := none
deriving DecidableEq, Repr

/-- `AnnotationProps extends GuidelineProps` with a `shapeId` back reference. -/
structure AnnotationProps where
  points : List ℚ
  text : Option String := none
  textPosition : Option Point := none
  shapeId : String
deriving DecidableEq, Repr

/-- `AlignmentGuideProps`: a full-canvas alignment guide. -/
structure AlignmentGuideProps where
  points : List ℚ
deriving DecidableEq, Repr

/-- `JointProps`: the small vertex marker placed during continuous drawing. -/
structure JointProps where
  id : String
  x : ℚ
  y : ℚ
  radius : ℚ
  fill : String
  stroke : String
deriving DecidableEq, Repr

/-! ## The history store (`src/src/store/historyStore.ts`) -/

/-- The document snapshot stored in one history record. -/
structure HistoryState where
  shapes : List ShapeProps
  annotations : List AnnotationProps
deriving DecidableEq, Repr

/-- One history record: snapshot plus description. -/
structure HistoryRecord where
  state : HistoryState
  description : String
deriving DecidableEq, Repr

/-- The zustand history store state. -/
structure HistoryStore where
  history : List HistoryRecord
  currentIndex : ℤ
  maxHistorySize : ℕ
  isSaved : Bool
deriving DecidableEq, Repr

/-- The store's initial state: `history: [], currentIndex: -1, maxHistorySize: 30, isSaved: true`. -/
def initialStore : HistoryStore :=
  { history := [], currentIndex := -1, maxHistorySize := 30, isSaved := true }

/-- The truncation step of `addHistory`: if the current index is not at the
tail, `history.slice(0, currentIndex + 1)`, otherwise a copy of `history`.
(For the reachable indices `≥ -1`, `slice(0, i+1)` is `take (i+1)`.) -/
def truncatedHistory (st : HistoryStore) : List HistoryRecord :=
  if st.currentIndex < (st.history.length : ℤ) - 1 then
    st.history.take (st.currentIndex + 1).toNat
  else
    st.history

/-- `addHistory(state, description)`: truncate the redo branch, append the
new record (the JSON deep copy is the identity on our pure values), and
evict from the front when the bound is exceeded. -/
def HistoryStore.addHistory (st : HistoryStore) (state : HistoryState)
    (description : String) : HistoryStore :=
  let newRecord : HistoryRecord := { state := state, description := description }
  let appended := truncatedHistory st ++ [newRecord]
  let newHistory :=
    if st.maxHistorySize < appended.length then
      appended.drop (appended.length - st.maxHistorySize)
    else
      appended
  { st with
      history := newHistory
      currentIndex := (newHistory.length : ℤ) - 1
      isSaved := false }

/-- `undo()`: returns the updated store and the returned snapshot
(`null` is `none`). -/
def HistoryStore.undo (st : HistoryStore) : HistoryStore × Option HistoryState :=
  if st.currentIndex ≤ 0 then (st, none)
  else
    let newIndex := st.currentIndex - 1
    ({ st with currentIndex := newIndex, isSaved := false },
     (st.history.get? newIndex.toNat).map (·.state))

/-- `redo()`: returns the updated store and the returned snapshot. -/
def HistoryStore.redo (st : HistoryStore) : HistoryStore × Option HistoryState :=
  if (st.history.length : ℤ) - 1 ≤ st.currentIndex then (st, none)
  else
    let newIndex := st.currentIndex + 1
    ({ st with currentIndex := newIndex, isSaved := false },
     (st.history.get? newIndex.toNat).map (·.state))

/-- `getCurrentState()`. -/
def HistoryStore.getCurrentState (st : HistoryStore) : Option HistoryState :=
  if 0 ≤ st.currentIndex ∧ st.currentIndex < (st.history.length : ℤ) then
    (st.history.get? st.currentIndex.toNat).map (·.state)
  else none

/-- `resetHistory()`. -/
def HistoryStore.resetHistory (st : HistoryStore) : HistoryStore :=
  { st with history := [], currentIndex := -1, isSaved := true }

/-- `canUndo()`. -/
def HistoryStore.canUndo (st : HistoryStore) : Bool :=
  0 < st.currentIndex

/-- `canRedo()`. -/
def HistoryStore.canRedo (st : HistoryStore) : Bool :=
  st.currentIndex < (st.history.length : ℤ) - 1

/-- One externally triggered operation on the history store. -/
inductive HistOp where
  | add (state : HistoryState) (description : String)
  | undoOp
  | redoOp
  | reset
deriving Repr

/-- Apply one operation (return values of undo/redo are discarded). -/
def applyHistOp (st : HistoryStore) : HistOp → HistoryStore
  | .add s d => st.addHistory s d
  | .undoOp => st.undo.1
  | .redoOp => st.redo.1
  | .reset => st.resetHistory

/-- Run a sequence of operations from the initial store state. -/
def runHistOps (ops : List HistOp) : HistoryStore :=
  ops.foldl applyHistOp initialStore

/-- The store invariant maintained by every operation: the configured bound
stays 30, the sequence never exceeds it, and the index is the -1 sentinel
(only with an empty history) or a valid position. -/
def histInv (st : HistoryStore) : Prop :=
  st.maxHistorySize = 30 ∧ st.history.length ≤ 30 ∧
    ((st.currentIndex = -1 ∧ st.history = []) ∨
      (0 ≤ st.currentIndex ∧ st.currentIndex < (st.history.length : ℤ)))

instance (st : HistoryStore) : Decidable (histInv st) := by
  unfold histInv; infer_instance

lemma addHistory_length (st : HistoryStore) (s : HistoryState) (d : String) :
    (st.addHistory s d).history.length
      = min (truncatedHistory st ++ [({ state := s, description := d } : HistoryRecord)]).length
          st.maxHistorySize := by
  unfold HistoryStore.addHistory
  simp only
  split
  · rename_i h
    simp only [List.length_drop]
    omega
  · rename_i h
    omega

lemma addHistory_suffix (st : HistoryStore) (s : HistoryState) (d : String) :
    (st.addHistory s d).history.IsSuffix
      (truncatedHistory st ++ [({ state := s, description := d } : HistoryRecord)]) := by
  unfold HistoryStore.addHistory
  simp only
  split
  · exact List.drop_suffix _ _
  · exact List.suffix_refl _

lemma addHistory_pos (st : HistoryStore) (s : HistoryState) (d : String)
    (hm : 1 ≤ st.maxHistorySize) : 1 ≤ (st.addHistory s d).history.length := by
  rw [addHistory_length]
  simp only [List.length_append, List.length_singleton]
  omega

lemma addHistory_currentIndex (st : HistoryStore) (s : HistoryState) (d : String) :
    (st.addHistory s d).currentIndex = ((st.addHistory s d).history.length : ℤ) - 1 := by
  unfold HistoryStore.addHistory
  simp only

lemma histInv_addHistory (st : HistoryStore) (s : HistoryState) (d : String)
    (h : histInv st) : histInv (st.addHistory s d) := by
  obtain ⟨hm, hlen, _⟩ := h
  refine ⟨by simp [HistoryStore.addHistory, hm], ?_, ?_⟩
  · rw [addHistory_length, hm]; omega
  · right
    have hpos : 1 ≤ (st.addHistory s d).history.length :=
      addHistory_pos st s d (by omega)
    rw [addHistory_currentIndex]
    omega

lemma histInv_undo (st : HistoryStore) (h : histInv st) : histInv st.undo.1 := by
  obtain ⟨hm, hlen, hidx⟩ := h
  unfold HistoryStore.undo
  split
  · exact ⟨hm, hlen, hidx⟩
  · rename_i hgt
    refine ⟨hm, hlen, Or.inr ?_⟩
    simp only
    rcases hidx with ⟨h1, _⟩ | ⟨h1, h2⟩ <;> omega

lemma histInv_redo (st : HistoryStore) (h : histInv st) : histInv st.redo.1 := by
  obtain ⟨hm, hlen, hidx⟩ := h
  unfold HistoryStore.redo
  split
  · exact ⟨hm, hlen, hidx⟩
  · rename_i hlt
    refine ⟨hm, hlen, Or.inr ?_⟩
    simp only
    rcases hidx with ⟨h1, h2⟩ | ⟨h1, h2⟩
    · have hz : st.history.length = 0 := by simp [h2]
      omega
    · omega

lemma histInv_reset (st : HistoryStore) (h : histInv st) :
    histInv st.resetHistory := by
  obtain ⟨hm, _, _⟩ := h
  exact ⟨hm, by simp [HistoryStore.resetHistory], Or.inl ⟨rfl, rfl⟩⟩

lemma histInv_applyHistOp (st : HistoryStore) (op : HistOp) (h : histInv st) :
    histInv (applyHistOp st op) := by
  cases op with
  | add s d => exact histInv_addHistory st s d h
  | undoOp => exact histInv_undo st h
  | redoOp => exact histInv_redo st h
  | reset => exact histInv_reset st h

lemma histInv_foldl (ops : List HistOp) (st : HistoryStore) (h : histInv st) :
    histInv (ops.foldl applyHistOp st) := by
  induction ops generalizing st with
  | nil => exact h
  | cons op rest ih => exact ih _ (histInv_applyHistOp st op h)

lemma histInv_runHistOps (ops : List HistOp) : histInv (runHistOps ops) :=
  histInv_foldl ops initialStore ⟨rfl, by simp [initialStore], Or.inl ⟨rfl, rfl⟩⟩

/-- C1: for every sequence of addHistory / undo / redo / resetHistory calls
from the initial store state, the history length never exceeds
`maxHistorySize` (30) and `currentIndex` is a valid index or the sentinel
`-1`; moreover each `addHistory` step produces a suffix of
(truncated history ++ new record), of length `min` of that and the bound —
i.e. entries are evicted oldest-first exactly when the bound is exceeded. -/
theorem history_bounded_and_index_valid :
    (∀ ops : List HistOp,
       (runHistOps ops).history.length ≤ 30 ∧
       ((runHistOps ops).currentIndex = -1 ∨
         (0 ≤ (runHistOps ops).currentIndex ∧
           (runHistOps ops).currentIndex < ((runHistOps ops).history.length : ℤ)))) ∧
    (∀ (st : HistoryStore) (s : HistoryState) (d : String),
       (st.addHistory s d).history.IsSuffix
         (truncatedHistory st ++ [({ state := s, description := d } : HistoryRecord)]) ∧
       (st.addHistory s d).history.length
         = min (truncatedHistory st ++ [({ state := s, description := d } : HistoryRecord)]).length
             st.maxHistorySize) := by
  constructor
  · intro ops
    obtain ⟨_, hlen, hidx⟩ := histInv_runHistOps ops
    exact ⟨hlen, by rcases hidx with ⟨h1, _⟩ | ⟨h1, h2⟩ <;> [exact Or.inl h1; exact Or.inr ⟨h1, h2⟩]⟩
  · intro st s d
    exact ⟨addHistory_suffix st s d, addHistory_length st s d⟩

/-- C2: pushing while the index is not at the tail truncates everything
after the current index and then appends, with the new record becoming the
current entry at index `currentIndex + 1`. -/
theorem addHistory_prunes_redo_branch (st : HistoryStore) (s : HistoryState) (d : String)
    (hlt : st.currentIndex < (st.history.length : ℤ) - 1)
    (hge : 0 ≤ st.currentIndex)
    (hbound : st.history.length ≤ st.maxHistorySize) :
    (st.addHistory s d).history
      = st.history.take (st.currentIndex + 1).toNat
          ++ [({ state := s, description := d } : HistoryRecord)] ∧
    (st.addHistory s d).currentIndex = st.currentIndex + 1 ∧
    (st.addHistory s d).history.length = (st.currentIndex + 1).toNat + 1 := by
  have htrunc : truncatedHistory st = st.history.take (st.currentIndex + 1).toNat := by
    unfold truncatedHistory
    rw [if_pos hlt]
  have htklen : (st.history.take (st.currentIndex + 1).toNat).length
      = (st.currentIndex + 1).toNat := by
    rw [List.length_take]
    omega
  have happlen : (truncatedHistory st
      ++ [({ state := s, description := d } : HistoryRecord)]).length
      = (st.currentIndex + 1).toNat + 1 := by
    rw [htrunc]
    simp only [List.length_append, List.length_singleton, htklen]
  have hsmall : ¬ st.maxHistorySize <
      (truncatedHistory st ++ [({ state := s, description := d } : HistoryRecord)]).length := by
    rw [happlen]
    omega
  refine ⟨?_, ?_, ?_⟩
  · unfold HistoryStore.addHistory
    simp only
    rw [if_neg hsmall, htrunc]
  · have hlen2 := addHistory_length st s d
    rw [addHistory_currentIndex, hlen2, happlen]
    omega
  · rw [addHistory_length, happlen]
    omega

/-- C2 witness: five pushes, two undos (index 2), then one push gives
length 4 with the new record current at index 3. -/
theorem addHistory_prunes_redo_branch_check :
    ((runHistOps [HistOp.add ⟨[], []⟩ "a", HistOp.add ⟨[], []⟩ "b", HistOp.add ⟨[], []⟩ "c",
        HistOp.add ⟨[], []⟩ "d", HistOp.add ⟨[], []⟩ "e", HistOp.undoOp,
        HistOp.undoOp]).addHistory ⟨[], []⟩ "f").history.length = 4 ∧
    ((runHistOps [HistOp.add ⟨[], []⟩ "a", HistOp.add ⟨[], []⟩ "b", HistOp.add ⟨[], []⟩ "c",
        HistOp.add ⟨[], []⟩ "d", HistOp.add ⟨[], []⟩ "e", HistOp.undoOp,
        HistOp.undoOp]).addHistory ⟨[], []⟩ "f").currentIndex = 3 := by
  have h := addHistory_prunes_redo_branch
    (runHistOps [HistOp.add ⟨[], []⟩ "a", HistOp.add ⟨[], []⟩ "b", HistOp.add ⟨[], []⟩ "c",
        HistOp.add ⟨[], []⟩ "d", HistOp.add ⟨[], []⟩ "e", HistOp.undoOp, HistOp.undoOp])
    ⟨[], []⟩ "f" (by decide) (by decide) (by decide)
  refine ⟨?_, ?_⟩
  · rw [h.2.2]; decide
  · rw [h.2.1]; decide

lemma undo_eq (st : HistoryStore) (h : 0 < st.currentIndex) :
    st.undo = ({ st with currentIndex := st.currentIndex - 1, isSaved := false },
      (st.history.get? (st.currentIndex - 1).toNat).map (·.state)) := by
  unfold HistoryStore.undo
  rw [if_neg (by omega)]

lemma redo_eq (st : HistoryStore) (h : st.currentIndex < (st.history.length : ℤ) - 1) :
    st.redo = ({ st with currentIndex := st.currentIndex + 1, isSaved := false },
      (st.history.get? (st.currentIndex + 1).toNat).map (·.state)) := by
  unfold HistoryStore.redo
  rw [if_neg (by omega)]

lemma getCurrentState_congr (s t : HistoryStore) (hh : s.history = t.history)
    (hi : s.currentIndex = t.currentIndex) : s.getCurrentState = t.getCurrentState := by
  unfold HistoryStore.getCurrentState
  rw [hh, hi]

/-- C3: on any state satisfying the store invariant (hence on any reachable
state), undo-then-redo and redo-then-undo round-trip to the same index and
the same current snapshot content, whenever they are enabled. -/
theorem undo_redo_roundtrip (st : HistoryStore) (hInv : histInv st) :
    (st.canUndo = true →
      (st.undo.1.redo.1.currentIndex = st.currentIndex ∧
        st.undo.1.redo.1.getCurrentState = st.getCurrentState)) ∧
    (st.canRedo = true →
      (st.redo.1.undo.1.currentIndex = st.currentIndex ∧
        st.redo.1.undo.1.getCurrentState = st.getCurrentState)) := by
  obtain ⟨_, _, hidx⟩ := hInv
  constructor
  · intro hcu
    have hgt : 0 < st.currentIndex := by
      unfold HistoryStore.canUndo at hcu
      exact of_decide_eq_true hcu
    have hlt : st.currentIndex < (st.history.length : ℤ) := by
      rcases hidx with ⟨h1, _⟩ | ⟨_, h2⟩ <;> omega
    have h1 : st.undo.1 = { st with currentIndex := st.currentIndex - 1, isSaved := false } := by
      rw [undo_eq st hgt]
    have hcond : st.undo.1.currentIndex < (st.undo.1.history.length : ℤ) - 1 := by
      rw [h1]
      exact (by omega : st.currentIndex - 1 < (st.history.length : ℤ) - 1)
    have h2 := redo_eq st.undo.1 hcond
    refine ⟨?_, getCurrentState_congr _ _ ?_ ?_⟩
    · rw [h2, h1]
      exact (by omega : st.currentIndex - 1 + 1 = st.currentIndex)
    · rw [h2, h1]
    · rw [h2, h1]
      exact (by omega : st.currentIndex - 1 + 1 = st.currentIndex)
  · intro hcr
    have hlt : st.currentIndex < (st.history.length : ℤ) - 1 := by
      unfold HistoryStore.canRedo at hcr
      exact of_decide_eq_true hcr
    have hge : 0 ≤ st.currentIndex := by
      rcases hidx with ⟨h1, h2⟩ | ⟨h1, _⟩
      · exfalso
        have hz : st.history.length = 0 := by simp [h2]
        omega
      · exact h1
    have h1 : st.redo.1 = { st with currentIndex := st.currentIndex + 1, isSaved := false } := by
      rw [redo_eq st hlt]
    have hcond : 0 < st.redo.1.currentIndex := by
      rw [h1]
      exact (by omega : 0 < st.currentIndex + 1)
    have h2 := undo_eq st.redo.1 hcond
    refine ⟨?_, getCurrentState_congr _ _ ?_ ?_⟩
    · rw [h2, h1]
      exact (by omega : st.currentIndex + 1 - 1 = st.currentIndex)
    · rw [h2, h1]
    · rw [h2, h1]
      exact (by omega : st.currentIndex + 1 - 1 = st.currentIndex)

/-- C3 witness: on a concrete reachable store with two entries at the tail,
undo-then-redo returns to index 1 with the same current snapshot. -/
theorem undo_redo_roundtrip_check :
    histInv (runHistOps [HistOp.add ⟨[], []⟩ "a", HistOp.add ⟨[], []⟩ "b"]) ∧
    (runHistOps [HistOp.add ⟨[], []⟩ "a", HistOp.add ⟨[], []⟩ "b"]).undo.1.redo.1.currentIndex
      = (runHistOps [HistOp.add ⟨[], []⟩ "a", HistOp.add ⟨[], []⟩ "b"]).currentIndex ∧
    (runHistOps [HistOp.add ⟨[], []⟩ "a",
        HistOp.add ⟨[], []⟩ "b"]).undo.1.redo.1.getCurrentState
      = (runHistOps [HistOp.add ⟨[], []⟩ "a", HistOp.add ⟨[], []⟩ "b"]).getCurrentState := by
  have hInv : histInv (runHistOps [HistOp.add ⟨[], []⟩ "a", HistOp.add ⟨[], []⟩ "b"]) := by
    decide
  have h := (undo_redo_roundtrip _ hInv).1 (by decide)
  exact ⟨hInv, h.1, h.2⟩

/-- C4: undo at index ≤ 0 and redo at the tail return `none` without any
state change; otherwise undo decrements (redo increments) the index by one
and returns the snapshot at the new index. -/
theorem undo_redo_boundaries (st : HistoryStore) :
    (st.currentIndex ≤ 0 → st.undo = (st, none)) ∧
    ((st.history.length : ℤ) - 1 ≤ st.currentIndex → st.redo = (st, none)) ∧
    (0 < st.currentIndex → st.currentIndex < (st.history.length : ℤ) →
      (st.undo.1.currentIndex = st.currentIndex - 1 ∧
        st.undo.1.history = st.history ∧
        ∃ r, st.history.get? (st.currentIndex - 1).toNat = some r ∧
          st.undo.2 = some r.state)) ∧
    (-1 ≤ st.currentIndex → st.currentIndex < (st.history.length : ℤ) - 1 →
      (st.redo.1.currentIndex = st.currentIndex + 1 ∧
        st.redo.1.history = st.history ∧
        ∃ r, st.history.get? (st.currentIndex + 1).toNat = some r ∧
          st.redo.2 = some r.state)) := by
  refine ⟨?_, ?_, ?_, ?_⟩
  · intro hle
    unfold HistoryStore.undo
    rw [if_pos hle]
  · intro hge
    unfold HistoryStore.redo
    rw [if_pos hge]
  · intro hgt hlt
    have hu := undo_eq st hgt
    have hin : (st.currentIndex - 1).toNat < st.history.length := by omega
    have hr : st.history.get? (st.currentIndex - 1).toNat
        = some (st.history.get ⟨(st.currentIndex - 1).toNat, hin⟩) :=
      List.get?_eq_get hin
    exact ⟨by rw [hu], by rw [hu],
      st.history.get ⟨(st.currentIndex - 1).toNat, hin⟩, hr, by rw [hu]; rw [hr]; rfl⟩
  · intro hge hlt
    have hrd := redo_eq st hlt
    have hin : (st.currentIndex + 1).toNat < st.history.length := by omega
    have hrr : st.history.get? (st.currentIndex + 1).toNat
        = some (st.history.get ⟨(st.currentIndex + 1).toNat, hin⟩) :=
      List.get?_eq_get hin
    exact ⟨by rw [hrd], by rw [hrd],
      st.history.get ⟨(st.currentIndex + 1).toNat, hin⟩, hrr, by rw [hrd]; rw [hrr]; rfl⟩

/-- C4 witness: boundary undo/redo on concrete stores return `none`
unchanged, and interior undo/redo step by one and return the snapshot. -/
theorem undo_redo_boundaries_check :
    (runHistOps [HistOp.add ⟨[], []⟩ "a"]).undo
      = (runHistOps [HistOp.add ⟨[], []⟩ "a"], none) ∧
    (runHistOps [HistOp.add ⟨[], []⟩ "a"]).redo
      = (runHistOps [HistOp.add ⟨[], []⟩ "a"], none) ∧
    (runHistOps [HistOp.add ⟨[], []⟩ "a", HistOp.add ⟨[], []⟩ "b"]).undo.1.currentIndex = 0 := by
  refine ⟨?_, ?_, ?_⟩
  · exact (undo_redo_boundaries (runHistOps [HistOp.add ⟨[], []⟩ "a"])).1 (by decide)
  · exact (undo_redo_boundaries (runHistOps [HistOp.add ⟨[], []⟩ "a"])).2.1 (by decide)
  · have h := ((undo_redo_boundaries
      (runHistOps [HistOp.add ⟨[], []⟩ "a", HistOp.add ⟨[], []⟩ "b"])).2.2.1
      (by decide) (by decide)).1
    rw [h]; decide

/-! ## Canvas component helpers -/

/-- `Math.min` on numbers. -/
def mathMin (a b : ℚ) : ℚ := if a < b then a else b

/-- `Math.max` on numbers. -/
def mathMax (a b : ℚ) : ℚ := if a < b then b else a

/-- `Math.abs`. -/
def mathAbs (a : ℚ) : ℚ := if a < 0 then -a else a

lemma mathMin_eq (a b : ℚ) : mathMin a b = min a b := by
  unfold mathMin
  rcases le_or_lt b a with h | h
  · rw [if_neg (not_lt.mpr h), min_eq_right h]
  · rw [if_pos h, min_eq_left (le_of_lt h)]

lemma mathMax_eq (a b : ℚ) : mathMax a b = max a b := by
  unfold mathMax
  rcases le_or_lt b a with h | h
  · rw [if_neg (not_lt.mpr h), max_eq_left h]
  · rw [if_pos h, max_eq_right (le_of_lt h)]

lemma mathAbs_eq (a : ℚ) : mathAbs a = |a| := by
  unfold mathAbs
  rcases le_or_lt 0 a with h | h
  · rw [if_neg (not_lt.mpr h), abs_of_nonneg h]
  · rw [if_pos h, abs_of_neg h]

/-- `Math.sqrt` embedded over `ℚ`: for `q = n/d ≥ 0` this is
`Nat.sqrt (n*d) / d`, which is the exact square root whenever `n*d` is a
perfect square and a floor approximation otherwise.  Every comparison
against a square root in the sources is embedded by comparing squares
instead (exact), so `ratSqrt` only feeds stored display geometry. -/
def ratSqrt (q : ℚ) : ℚ :=
  (Nat.sqrt (q.num.toNat * q.den) : ℚ) / (q.den : ℚ)

/-- `pixelsToMeters`: fixed ratio, 100 px = 1 m. -/
def pixelsToMeters (pixels : ℚ) : ℚ :=
  pixels / 100

/-- Embeds `Number.prototype.toFixed(2)` on exact rationals: round
`q * 100` to the nearest integer (ties towards the larger value, as the
ECMAScript algorithm picks the larger candidate) and print with two
decimals.  (JS computes on binary floats; all claim inputs are exact.) -/
def ratToFixed2 (q : ℚ) : String :=
  let n : ℤ := ⌊q * 100 + 1/2⌋
  let intPart := n.natAbs / 100
  let fracPart := n.natAbs % 100
  (if n < 0 then "-" else "") ++ toString intPart ++ "." ++
    (if fracPart < 10 then "0" ++ toString fracPart else toString fracPart)

/-- `formatMeasurement`: metres with two decimals. -/
def formatMeasurement (pixels : ℚ) : String :=
  ratToFixed2 (pixelsToMeters pixels) ++ "m"

/-- `const alignmentThreshold = 10`. -/
def alignmentThreshold : ℚ := 10

/-- `activeControlPoint` is created by `useState({index: -1, handle: null})`
and no setter is ever used, so its index is the constant `-1`. -/
def activeControlPointIndex : ℤ := -1

/-- `generateId` (Math.random-based in the source) modelled as a counter:
only freshness of the produced string is ever relied upon. -/
def generateId (n : ℕ) : String :=
  "id-" ++ toString n

/-- Accumulator of the alignment-snap `forEach`: the running `snapToX`,
`snapToY` and the collected alignment guides. -/
structure SnapResult where
  snapToX : Option ℚ := none
  snapToY : Option ℚ := none
  guides : List AlignmentGuideProps := []
deriving DecidableEq, Repr

/-- One iteration of the snap `forEach` (`handleMouseMove` lines 877-965,
duplicated in `handleMouseUp` lines 1165-1253): skip the shape being
drawn; rectangles contribute their four edges, lines (with ≥ 4 points)
their two endpoints; each hit within the threshold emits a full-canvas
guide and overwrites the running snap value (last hit wins). -/
def snapAgainstShape (canvasW canvasH x y : ℚ) (currentShapeId : String)
    (acc : SnapResult) (shape : ShapeProps) : SnapResult :=
  if shape.id = currentShapeId then acc
  else if shape.type = "rectangle" then
    let shapeLeft := shape.x
    let shapeRight := shape.x + shape.width.getD 0
    let shapeTop := shape.y
    let shapeBottom := shape.y + shape.height.getD 0
    let acc := if mathAbs (x - shapeLeft) < alignmentThreshold then
        { acc with guides := acc.guides ++ [⟨[shapeLeft, 0, shapeLeft, canvasH]⟩],
                   snapToX := some shapeLeft }
      else acc
    let acc := if mathAbs (x - shapeRight) < alignmentThreshold then
        { acc with guides := acc.guides ++ [⟨[shapeRight, 0, shapeRight, canvasH]⟩],
                   snapToX := some shapeRight }
      else acc
    let acc := if mathAbs (y - shapeTop) < alignmentThreshold then
        { acc with guides := acc.guides ++ [⟨[0, shapeTop, canvasW, shapeTop]⟩],
                   snapToY := some shapeTop }
      else acc
    let acc := if mathAbs (y - shapeBottom) < alignmentThreshold then
        { acc with guides := acc.guides ++ [⟨[0, shapeBottom, canvasW, shapeBottom]⟩],
                   snapToY := some shapeBottom }
      else acc
    acc
  else if shape.type = "line" ∧ 4 ≤ (shape.points.getD []).length then
    let pts := shape.points.getD []
    let startX := pts.getD 0 0
    let startY := pts.getD 1 0
    let endX := pts.getD 2 0
    let endY := pts.getD 3 0
    let acc := if mathAbs (x - startX) < alignmentThreshold then
        { acc with guides := acc.guides ++ [⟨[startX, 0, startX, canvasH]⟩],
                   snapToX := some startX }
      else acc
    let acc := if mathAbs (y - startY) < alignmentThreshold then
        { acc with guides := acc.guides ++ [⟨[0, startY, canvasW, startY]⟩],
                   snapToY := some startY }
      else acc
    let acc := if mathAbs (x - endX) < alignmentThreshold then
        { acc with guides := acc.guides ++ [⟨[endX, 0, endX, canvasH]⟩],
                   snapToX := some endX }
      else acc
    let acc := if mathAbs (y - endY) < alignmentThreshold then
        { acc with guides := acc.guides ++ [⟨[0, endY, canvasW, endY]⟩],
                   snapToY := some endY }
      else acc
    acc
  else acc

/-- The whole snap `forEach` over the shape list. -/
def computeSnap (shapes : List ShapeProps) (currentShapeId : String)
    (x y canvasW canvasH : ℚ) : SnapResult :=
  shapes.foldl (snapAgainstShape canvasW canvasH x y currentShapeId) {}

/-- Sum of the even-index entries of a flat coordinate list. -/
def sumAtEven : List ℚ → ℚ
  | [] => 0
  | [a] => a
  | a :: _ :: rest => a + sumAtEven rest

/-- Sum of the odd-index entries of a flat coordinate list (a missing
trailing partner — `undefined` in JS — contributes 0). -/
def sumAtOdd : List ℚ → ℚ
  | [] => 0
  | [_] => 0
  | _ :: b :: rest => b + sumAtOdd rest

/-- The per-shape `switch` body of the `setShapes(shapes.map(...))` call in
`handleMouseMove`: resize the shape being drawn.  Only the line/polygon
branch uses the snapped coordinates (`sx`, `sy`); rectangle, circle and
brush use the raw pointer coordinates. -/
def moveShapeUpdate (currentShapeId : String) (sp : Point) (x y sx sy : ℚ)
    (shape : ShapeProps) : ShapeProps :=
  if shape.id ≠ currentShapeId then shape
  else if shape.type = "rectangle" then
    { shape with
        width := some (mathAbs (x - sp.x))
        height := some (mathAbs (y - sp.y))
        x := mathMin sp.x x
        y := mathMin sp.y y }
  else if shape.type = "circle" then
    { shape with radius := some (ratSqrt ((x - sp.x) ^ 2 + (y - sp.y) ^ 2)) }
  else if shape.type = "line" ∨ shape.type = "polygon" then
    { shape with points := some [sp.x, sp.y, sx, sy] }
  else if shape.type = "brush" ∨ shape.type = "path" then
    { shape with points := some (shape.points.getD [] ++ [x, y]) }
  else shape

/-- The measurement guidelines pushed for one shape during the same
`setShapes` map.  Geometry is kept; the human-readable label and its
anchor are elided (`Math.atan2` degrees are not exactly representable);
the line-branch offset uses `ratSqrt` for the unit normal. -/
def guidesForShape (sp : Point) (x y sx sy : ℚ) (linePoints : List ℚ)
    (shape : ShapeProps) : List GuidelineProps :=
  if shape.type = "rectangle" then
    let w := mathAbs (x - sp.x)
    let h := mathAbs (y - sp.y)
    let rectX := mathMin sp.x x
    let rectY := mathMin sp.y y
    [{ points := [rectX, rectY - 15, rectX + w, rectY - 15] },
     { points := [rectX - 15, rectY, rectX - 15, rectY + h] }]
  else if shape.type = "circle" then
    [{ points := [sp.x, sp.y, x, y] }]
  else if shape.type = "line" ∨ shape.type = "polygon" then
    let ldx := sx - sp.x
    let ldy := sy - sp.y
    -- `normalizedLength < 1` is `sqrt(ldx²+ldy²) < 1`, i.e. `ldx²+ldy² < 1`.
    if ldx ^ 2 + ldy ^ 2 < 1 then []
    else
      let len := ratSqrt (ldx ^ 2 + ldy ^ 2)
      let perpX := -ldy / len
      let perpY := ldx / len
      let cnt : ℚ := ((linePoints.length + 1) / 2 + 1 : ℕ)
      let centerX := if 4 ≤ linePoints.length then (sumAtEven linePoints + sp.x) / cnt else sp.x
      let centerY := if 4 ≤ linePoints.length then (sumAtOdd linePoints + sp.y) / cnt else sp.y
      let midX := (sp.x + sx) / 2
      let midY := (sp.y + sy) / 2
      let dotProduct := perpX * (centerX - midX) + perpY * (centerY - midY)
      let direction : ℚ := if dotProduct < 0 then 1 else -1
      [{ points := [sp.x + perpX * 18 * direction, sp.y + perpY * 18 * direction,
                    sx + perpX * 18 * direction, sy + perpY * 18 * direction] }]
  else []

/-- squared `pointToLineDistance`: the source returns
`Math.sqrt(dx²+dy²)` and is only ever compared against the (nonnegative)
tolerance, so the squared form is the exact embedding of that comparison. -/
def pointToLineDistSq (p a b : ℚ × ℚ) : ℚ :=
  let A := p.1 - a.1
  let B := p.2 - a.2
  let C := b.1 - a.1
  let D := b.2 - a.2
  let lenSq := C * C + D * D
  let param := if lenSq ≠ 0 then (A * C + B * D) / lenSq else -1
  let xx := if param < 0 then a.1 else if 1 < param then b.1 else a.1 + param * C
  let yy := if param < 0 then a.2 else if 1 < param then b.2 else a.2 + param * D
  (p.1 - xx) ^ 2 + (p.2 - yy) ^ 2

/-- Flat coordinate list to point pairs (a dangling odd element — which
would be paired with `undefined` in JS — is dropped; brush paths always
have even length). -/
def toPairs : List ℚ → List (ℚ × ℚ)
  | a :: b :: rest => (a, b) :: toPairs rest
  | _ => []

/-- Point pairs back to the flat coordinate list. -/
def flattenPairs : List (ℚ × ℚ) → List ℚ
  | [] => []
  | (a, b) :: rest => a :: b :: flattenPairs rest

/-- The interior loop of `simplifyPoints`: walk consecutive triples of the
original points and keep the middle one when its distance to the segment
through its neighbours exceeds the tolerance (`distance > tolerance`
embedded as squares). -/
def keepMiddle (tol2 : ℚ) : List (ℚ × ℚ) → List (ℚ × ℚ)
  | p1 :: p2 :: p3 :: rest =>
      (if tol2 < pointToLineDistSq p2 p1 p3 then [p2] else [])
        ++ keepMiddle tol2 (p2 :: p3 :: rest)
  | _ => []

/-- `simplifyPoints(points, tolerance)`: keep the first point, the
perpendicular-distance-filtered interior, and the last point. -/
def simplifyPoints (points : List ℚ) (tolerance : ℚ) : List ℚ :=
  if points.length ≤ 4 then points
  else
    let ps := toPairs points
    match ps with
    | [] => points
    | first :: _ =>
        flattenPairs ([first] ++ keepMiddle (tolerance ^ 2) ps ++ [ps.getLast?.getD first])

/-- The per-shape `switch` body of the first `setShapes` call in
`handleMouseUp`: like the move update, but brush/path points are
simplified when more than 10 coordinates accumulated. -/
def upShapeUpdate (currentShapeId : String) (sp : Point) (x y sx sy : ℚ)
    (shape : ShapeProps) : ShapeProps :=
  if shape.id ≠ currentShapeId then shape
  else if shape.type = "rectangle" then
    { shape with
        width := some (mathAbs (x - sp.x))
        height := some (mathAbs (y - sp.y))
        x := mathMin sp.x x
        y := mathMin sp.y y }
  else if shape.type = "circle" then
    { shape with radius := some (ratSqrt ((x - sp.x) ^ 2 + (y - sp.y) ^ 2)) }
  else if shape.type = "line" ∨ shape.type = "polygon" then
    { shape with points := some [sp.x, sp.y, sx, sy] }
  else if shape.type = "brush" ∨ shape.type = "path" then
    let finalPoints := shape.points.getD [] ++ [x, y]
    if 10 < finalPoints.length then
      { shape with points := some (simplifyPoints finalPoints 1) }
    else
      { shape with points := some finalPoints }
  else shape

/-- The `toolNames` record of `handleMouseUp` (JS yields `undefined` for a
missing key, which only the in-list tools ever reach). -/
def toolNames (tool : String) : String :=
  if tool = "line" then "直线"
  else if tool = "rectangle" then "矩形"
  else if tool = "circle" then "圆形"
  else if tool = "path" then "路径"
  else if tool = "brush" then "画笔"
  else if tool = "polygon" then "多边形"
  else "undefined"

/-- JS truthiness of a nullable string (`null` and `""` are falsy). -/
def optStringTruthy : Option String → Bool
  | none => false
  | some s => s ≠ ""

/-- The small accidental-click rejection condition of `handleMouseUp`
(lines 1457-1463): only for the rectangle/circle tools, and only when a
rectangle is below 5 in BOTH dimensions or a circle radius is below 5. -/
def smallShapeDiscard (activeTool : String) (currentShape : Option ShapeProps) : Bool :=
  match currentShape with
  | some shape =>
      (activeTool = "rectangle" ∨ activeTool = "circle") ∧
        ((shape.type = "rectangle" ∧ shape.width.getD 0 < 5 ∧ shape.height.getD 0 < 5) ∨
          (shape.type = "circle" ∧ shape.radius.getD 0 < 5))
  | none => false

/-- The canvas component state: one field per `useState` hook (plus the
store values the handlers use).  Presentation-only state (cursor, text
edit box geometry, pan/ruler rendering) is not modelled; `idCounter`
realises `generateId`. -/
structure CanvasState where
  shapes : List ShapeProps
  selectedId : Option String := none
  guidelines : List GuidelineProps := []
  annotations : List AnnotationProps := []
  alignmentGuides : List AlignmentGuideProps := []
  isDrawing : Bool := false
  startPoint : Option Point := none
  currentShapeId : Option String := none
  continuousDrawing : Bool := false
  linePoints : List ℚ := []
  lineSegments : List ShapeProps := []
  joints : List JointProps := []
  isSpacePressed : Bool := false
  mouseCaptured : Bool := false
  editingText : Option String := none
  activeTool : String
  strokeColor : String := "#000000"
  strokeWidth : ℚ := 2
  fillColor : String := "#000000"
  hasFill : Bool := false
  canvasWidth : ℚ := 800
  canvasHeight : ℚ := 600
  zoom : ℚ := 100
  hist : HistoryStore := initialStore
  idCounter : ℕ := 0
deriving DecidableEq, Repr

/-- Convert one captured guideline into a permanent `AnnotationProps`
(`{...guide, shapeId: currentShapeId}`). -/
def guideToAnno (currentShapeId : String) (g : GuidelineProps) : AnnotationProps :=
  { points := g.points, text := g.text, textPosition := g.textPosition,
    shapeId := currentShapeId }

/-- `recordHistory(description)`: pushes the *captured* `shapes` and
`annotations` (render-scope constants) onto the history store. -/
def recordHistory (shapes0 : List ShapeProps) (annotations0 : List AnnotationProps)
    (description : String) (st : CanvasState) : CanvasState :=
  { st with hist := st.hist.addHistory ⟨shapes0, annotations0⟩ description }

/-- `handleUndo`: pop the store and, when a snapshot comes back, install it
as the live document. -/
def handleUndo (st : CanvasState) : CanvasState :=
  let res := st.hist.undo
  match res.2 with
  | some prev => { st with hist := res.1, shapes := prev.shapes, annotations := prev.annotations }
  | none => { st with hist := res.1 }

/-- `handleRedo`. -/
def handleRedo (st : CanvasState) : CanvasState :=
  let res := st.hist.redo
  match res.2 with
  | some nextState =>
      { st with hist := res.1, shapes := nextState.shapes,
                annotations := nextState.annotations }
  | none => { st with hist := res.1 }

/-- A keyboard event as seen by the global keydown listener. -/
structure KeyEvent where
  code : String
  key : String
  ctrlKey : Bool := false
deriving DecidableEq, Repr

/-- `if (e.code === 'Space')` branch of the global keydown handler
(the cursor change is presentation-only). -/
def kdSpaceStep (e : KeyEvent) (st : CanvasState) : CanvasState :=
  if e.code = "Space" then { st with isSpacePressed := true } else st

/-- `if (e.code === 'Escape')` branch: end continuous drawing. -/
def kdEscapeStep (e : KeyEvent) (st : CanvasState) : CanvasState :=
  if e.code = "Escape" then
    { st with continuousDrawing := false, linePoints := [], isDrawing := false,
              currentShapeId := none }
  else st

/-- `if (e.ctrlKey && e.key === 'z')` branch: undo shortcut. -/
def kdUndoStep (e : KeyEvent) (st : CanvasState) : CanvasState :=
  if e.ctrlKey = true ∧ e.key = "z" then handleUndo st else st

/-- `if (e.ctrlKey && e.key === 'y')` branch: redo shortcut. -/
def kdRedoStep (e : KeyEvent) (st : CanvasState) : CanvasState :=
  if e.ctrlKey = true ∧ e.key = "y" then handleRedo st else st

/-- `if ((e.key === 'Delete' || e.key === 'Backspace') && selectedId)`
branch, over the captured render-scope `shapes`/`annotations`/`selectedId`. -/
def kdDeleteStep (e : KeyEvent) (shapes0 : List ShapeProps)
    (annotations0 : List AnnotationProps) (selectedId0 : Option String)
    (st : CanvasState) : CanvasState :=
  if (e.key = "Delete" ∨ e.key = "Backspace") ∧ optStringTruthy selectedId0 = true then
    let sid := selectedId0.getD ""
    { st with
        shapes := shapes0.filter (fun shape => shape.id ≠ sid)
        annotations := annotations0.filter (fun anno => anno.shapeId ≠ sid)
        hist := st.hist.addHistory
          ⟨shapes0.filter (fun shape => shape.id ≠ sid),
           annotations0.filter (fun anno => anno.shapeId ≠ sid)⟩
          ("删除形状 #" ++ sid)
        selectedId := none }
  else st

/-- The global `handleKeyboardDown` listener (part_008 lines 398-442).
All four action branches run unconditionally and in order; the
`if (editingText !== null) return;` guard is the LAST statement of the
handler, so it guards nothing.  The delete branch reads the captured
render-scope `shapes`/`annotations`/`selectedId`. -/
def handleKeyboardDown (e : KeyEvent) (st0 : CanvasState) : CanvasState :=
  kdDeleteStep e st0.shapes st0.annotations st0.selectedId
    (kdRedoStep e (kdUndoStep e (kdEscapeStep e (kdSpaceStep e st0))))

/-- `handlePassiveWheel` (part_008 lines 2709-2732), returning the new
zoom.  The ctrl/meta branch scales `deltaY` by `0.4`, the plain branch by
`1/10`; both clamp to `[20, 400]`. -/
def handlePassiveWheel (deltaY : ℚ) (ctrlKey metaKey : Bool) (zoom : ℚ) : ℚ :=
  if ctrlKey = true ∨ metaKey = true then
    let delta := deltaY
    let zoomFactor : ℚ := 2/5
    let newZoom := zoom - delta * zoomFactor
    mathMax 20 (mathMin 400 newZoom)
  else
    let delta := deltaY
    let newZoom := zoom - delta / 10
    mathMax 20 (mathMin 400 newZoom)

/-- `handleMouseMove` for the drawing flow (part_008 lines 766-1138), with
`pos` the already-converted canvas coordinate of the pointer.  The pan
branch (space+capture) only touches unmodelled presentation state; the
pen control-point branch is dead (`activeControlPointIndex = -1`). -/
def handleMouseMove (pos : Point) (st0 : CanvasState) : CanvasState :=
  if st0.isSpacePressed = true ∧ st0.mouseCaptured = true then st0
  else
    let x := pos.x
    let y := pos.y
    if st0.activeTool = "path" ∧ st0.isDrawing = true ∧ st0.currentShapeId.isSome = true ∧
        activeControlPointIndex ≠ -1 then st0
    else
      match st0.startPoint, st0.currentShapeId with
      | some sp, some cid =>
        if st0.isDrawing = false then st0
        else
          let snap := computeSnap st0.shapes cid x y st0.canvasWidth st0.canvasHeight
          let st := { st0 with alignmentGuides := snap.guides }
          let snappedX := snap.snapToX.getD x
          let snappedY := snap.snapToY.getD y
          let st := { st with
            shapes := st0.shapes.map (moveShapeUpdate cid sp x y snappedX snappedY) }
          { st with
            guidelines :=
              (st0.shapes.filter (fun s => s.id = cid)).foldl
                (fun acc s => acc ++ guidesForShape sp x y snappedX snappedY st0.linePoints s)
                [] }
      | _, _ => st0

/-!
`handleMouseUp` (part_008 lines 1141-1659) is embedded phase by phase in
the defs below, with `pos` the converted canvas coordinate.  State writes
are threaded sequentially; expressions use the captured render-scope
values (read off `st0`), reproducing React's stale-closure semantics —
in particular the second `setShapes` (draggable) overwrites the first
(snap/resize), and the deferred `setTimeout(0)` continuation of the
continuous-polygon branch is applied at the end of the transition,
computed from the captured values it closes over.
-/

/-- The `else if (activeTool === 'line')` arm of `handleMouseUp`
(lines 1593-1611). -/
def mouseUpLineBranch (st0 : CanvasState) (cid : String) (st : CanvasState) : CanvasState :=
  { st with annotations := st0.annotations ++ st0.guidelines.map (guideToAnno cid),
            guidelines := [], isDrawing := false, startPoint := none,
            currentShapeId := none }

/-- The code after the polygon/line branch chain of `handleMouseUp`
(lines 1614-1658): persist the captured guidelines as annotations, reset
the drawing session, and record one history entry (from the captured
document) unless a continuous polygon draw is still in progress. -/
def mouseUpTailBranch (st0 : CanvasState) (cid : String) (st : CanvasState) : CanvasState :=
  let st := { st with annotations := st0.annotations ++ st0.guidelines.map (guideToAnno cid) }
  let st := { st with guidelines := [], isDrawing := false, startPoint := none,
                      currentShapeId := none }
  if st0.activeTool = "line" ∨ st0.activeTool = "rectangle" ∨
      st0.activeTool = "circle" ∨ st0.activeTool = "path" ∨
      st0.activeTool = "brush" ∨ st0.activeTool = "polygon" then
    if st0.activeTool = "polygon" ∧ st0.continuousDrawing = true then st
    else
      recordHistory st0.shapes st0.annotations
        ("绘制" ++ toolNames st0.activeTool ++ " #" ++ cid) st
  else st

/-- The closing sub-branch of the continuous polygon logic (lines
1493-1526): snap the final segment exactly onto the first vertex, persist
the captured guidelines, and leave continuous-drawing mode.  (No Joint is
added on this path.) -/
def polygonCloseBranch (st0 : CanvasState) (cid : String) (cs : ShapeProps)
    (pts : List ℚ) (st : CanvasState) : CanvasState :=
  let firstX := st0.linePoints.getD 0 0
  let firstY := st0.linePoints.getD 1 0
  let updatedCurrentShape :=
    { cs with points := some [pts.getD 0 0, pts.getD 1 0, firstX, firstY] }
  let st := { st with
    shapes := st.shapes.map (fun s : ShapeProps =>
      if s.id = cid then updatedCurrentShape else s) }
  let st := { st with annotations := st0.annotations ++ st0.guidelines.map (guideToAnno cid) }
  let st := { st with guidelines := [] }
  { st with continuousDrawing := false, linePoints := [],
            isDrawing := false, currentShapeId := none }

/-- The non-closing continuation of the continuous polygon logic (lines
1529-1592), including the `setTimeout(0)` continuation that starts the
next segment from the previous endpoint. -/
def polygonContinueBranch (st0 : CanvasState) (cid : String) (cs : ShapeProps)
    (lineEndX lineEndY : ℚ) (st : CanvasState) : CanvasState :=
  let st := { st with linePoints := st0.linePoints ++ [lineEndX, lineEndY] }
  let st := { st with lineSegments := st0.lineSegments ++ [{ cs with draggable := true }] }
  let st := if 2 ≤ st0.linePoints.length then
      { st with
        joints := st.joints ++
          [{ id := generateId st.idCounter, x := lineEndX, y := lineEndY,
             radius := st0.strokeWidth * (2/5), fill := st0.strokeColor,
             stroke := st0.strokeColor }],
        idCounter := st.idCounter + 1 }
    else st
  let st := { st with continuousDrawing := true }
  let st := { st with annotations := st0.annotations ++ st0.guidelines.map (guideToAnno cid) }
  let st := { st with guidelines := [] }
  let st := { st with isDrawing := false, currentShapeId := none }
  let newId := generateId st.idCounter
  let st := { st with idCounter := st.idCounter + 1 }
  let newLine : ShapeProps :=
    { id := newId, type := "line", x := 0, y := 0,
      points := some [lineEndX, lineEndY, lineEndX, lineEndY],
      stroke := st0.strokeColor, strokeWidth := st0.strokeWidth,
      fill := "transparent", draggable := true }
  { st with shapes := st0.shapes ++ [newLine], currentShapeId := some newId,
            startPoint := some ⟨lineEndX, lineEndY⟩, isDrawing := true }

/-- The continuous polygon branch (lines 1474-1592): read the (already
snapped) stored endpoint of the current segment and either close the
polygon — when within 15 units of the first chain vertex — or continue
with the next segment. -/
def polygonMouseUpBranch (st0 : CanvasState) (cid : String) (cs : ShapeProps)
    (pts : List ℚ) (st : CanvasState) : CanvasState :=
  let lineEndX := pts.getD 2 0
  let lineEndY := pts.getD 3 0
  -- close when sqrt(dx²+dy²) < 15, i.e. dx²+dy² < 225
  if st0.continuousDrawing = true ∧ 2 ≤ st0.linePoints.length ∧
      (lineEndX - st0.linePoints.getD 0 0) ^ 2 +
        (lineEndY - st0.linePoints.getD 1 0) ^ 2 < 225 then
    polygonCloseBranch st0 cid cs pts st
  else
    polygonContinueBranch st0 cid cs lineEndX lineEndY st

/-- The drawing phase of `handleMouseUp` once the guards passed: snap
computation, the two `setShapes` writes (the second, computed from the
captured shapes, overwrites the first), the small-shape rejection, and
the per-tool branch chain. -/
def mouseUpDrawPhase (pos : Point) (st0 : CanvasState) (sp : Point) (cid : String)
    (st : CanvasState) : CanvasState :=
  let x := pos.x
  let y := pos.y
  let snap := computeSnap st0.shapes cid x y st0.canvasWidth st0.canvasHeight
  let st := { st with alignmentGuides := snap.guides }
  let snappedX := snap.snapToX.getD x
  let snappedY := snap.snapToY.getD y
  let st := { st with shapes := st0.shapes.map (upShapeUpdate cid sp x y snappedX snappedY) }
  let st := { st with
    guidelines :=
      (st0.shapes.filter (fun s : ShapeProps => s.id = cid)).foldl
        (fun acc (s : ShapeProps) =>
          acc ++ guidesForShape sp x y snappedX snappedY st0.linePoints s) [] }
  let st := { st with alignmentGuides := [] }
  -- `if (!isDrawing || !currentShapeId) return;` re-checks captured values: already true
  let currentShape := st0.shapes.find? (fun s => s.id = cid)
  let st := { st with
    shapes := st0.shapes.map (fun s : ShapeProps =>
      if s.id = cid then { s with draggable := true } else s) }
  if smallShapeDiscard st0.activeTool currentShape = true then
    { st with shapes := st0.shapes.filter (fun s => s.id ≠ cid), guidelines := [],
              isDrawing := false, startPoint := none, currentShapeId := none }
  else if st0.activeTool = "polygon" then
    match currentShape with
    | some cs =>
      match cs.points with
      | some pts => polygonMouseUpBranch st0 cid cs pts st
      | none => mouseUpTailBranch st0 cid st
    | none => mouseUpTailBranch st0 cid st
  else if st0.activeTool = "line" then mouseUpLineBranch st0 cid st
  else mouseUpTailBranch st0 cid st

/-- `handleMouseUp` top level: the space-pan early return, the
`mouseCaptured` reset, and the drawing guards. -/
def handleMouseUp (pos : Point) (st0 : CanvasState) : CanvasState :=
  if st0.isSpacePressed = true ∧ st0.mouseCaptured = true then
    { st0 with mouseCaptured := false }
  else
    let st := { st0 with mouseCaptured := false }
    match st0.startPoint, st0.currentShapeId with
    | some sp, some cid =>
      if st0.isDrawing = false then st
      else mouseUpDrawPhase pos st0 sp cid st
    | _, _ => st

/-! ## Theorems about the wheel-zoom handler (C7) -/

/-- C7 counterexample: at zoom 100 with `deltaY = 100`, the ctrl/meta
branch moves the zoom to 60 (an absolute change of 40) while the plain
branch moves it to 90 (a change of 10) — the modifier branch's change is
NOT smaller than the plain branch's, contradicting the claim. -/
theorem wheel_modifier_change_not_smaller_cex :
    handlePassiveWheel 100 true false 100 = 60 ∧
    handlePassiveWheel 100 false false 100 = 90 ∧
    ¬(|handlePassiveWheel 100 true false 100 - 100|
        < |handlePassiveWheel 100 false false 100 - 100|) := by
  have h1 : handlePassiveWheel 100 true false 100 = 60 := by
    norm_num [handlePassiveWheel, mathMax, mathMin]
  have h2 : handlePassiveWheel 100 false false 100 = 90 := by
    norm_num [handlePassiveWheel, mathMax, mathMin]
  refine ⟨h1, h2, ?_⟩
  rw [h1, h2]
  rw [show (60 : ℚ) - 100 = -40 by norm_num, show (90 : ℚ) - 100 = -10 by norm_num]
  rw [abs_neg, abs_neg, abs_of_nonneg (by norm_num : (0:ℚ) ≤ 40),
    abs_of_nonneg (by norm_num : (0:ℚ) ≤ 10)]
  norm_num

/-- C7 amended: a ctrl/meta wheel event changes the zoom with GREATER
sensitivity than a plain wheel event: the modifier branch scales `deltaY`
by `0.4` against `0.1` for plain scroll, so for the same `deltaY` and any
in-range zoom its absolute change is at least the plain branch's. -/
theorem wheel_modifier_change_at_least_plain (c m : Bool) (d z : ℚ)
    (hcm : c = true ∨ m = true) (h1 : 20 ≤ z) (h2 : z ≤ 400) :
    |handlePassiveWheel d false false z - z| ≤ |handlePassiveWheel d c m z - z| := by
  unfold handlePassiveWheel
  rw [if_pos hcm, if_neg (by simp)]
  simp only [mathMax_eq, mathMin_eq]
  rcases le_or_lt 0 d with hd | hd
  · have ht : z - d * (2/5) ≤ z - d / 10 := by linarith
    have hmono : max 20 (min 400 (z - d * (2/5))) ≤ max 20 (min 400 (z - d / 10)) :=
      max_le_max le_rfl (min_le_min le_rfl ht)
    have hle : max 20 (min 400 (z - d / 10)) ≤ z :=
      max_le h1 (le_trans (min_le_right _ _) (by linarith))
    have hle2 : max 20 (min 400 (z - d * (2/5))) ≤ z := le_trans hmono hle
    rw [abs_of_nonpos (by linarith), abs_of_nonpos (by linarith)]
    linarith
  · have ht : z - d / 10 ≤ z - d * (2/5) := by linarith
    have hmono : max 20 (min 400 (z - d / 10)) ≤ max 20 (min 400 (z - d * (2/5))) :=
      max_le_max le_rfl (min_le_min le_rfl ht)
    have hge : z ≤ max 20 (min 400 (z - d / 10)) :=
      le_trans (le_min h2 (by linarith)) (le_max_right _ _)
    have hge2 : z ≤ max 20 (min 400 (z - d * (2/5))) := le_trans hge hmono
    rw [abs_of_nonneg (by linarith), abs_of_nonneg (by linarith)]
    linarith

/-- C7 amended witness: instantiated at ctrl-wheel, `deltaY = 10`, zoom 100. -/
theorem wheel_modifier_change_at_least_plain_check :
    (20 : ℚ) ≤ 100 ∧ (100 : ℚ) ≤ 400 ∧
    |handlePassiveWheel 10 false false 100 - 100|
      ≤ |handlePassiveWheel 10 true false 100 - 100| :=
  ⟨by norm_num, by norm_num,
    wheel_modifier_change_at_least_plain true false 10 100 (Or.inl rfl)
      (by norm_num) (by norm_num)⟩

/-! ## Theorems about the global keydown handler (C8, C10) -/

lemma addHistory_history_concat (st : HistoryStore) (s : HistoryState) (d : String)
    (hm : 1 ≤ st.maxHistorySize) :
    ∃ l, (st.addHistory s d).history
      = l ++ [({ state := s, description := d } : HistoryRecord)] := by
  unfold HistoryStore.addHistory
  simp only
  split
  · rename_i h
    have hk : (truncatedHistory st
          ++ [({ state := s, description := d } : HistoryRecord)]).length
          - st.maxHistorySize ≤ (truncatedHistory st).length := by
      simp only [List.length_append, List.length_singleton]
      omega
    refine ⟨(truncatedHistory st).drop
      ((truncatedHistory st
          ++ [({ state := s, description := d } : HistoryRecord)]).length
        - st.maxHistorySize), ?_⟩
    rw [List.drop_append_of_le_length hk]
  · exact ⟨truncatedHistory st, rfl⟩

lemma getCurrentState_addHistory (st : HistoryStore) (s : HistoryState) (d : String)
    (hm : 1 ≤ st.maxHistorySize) :
    (st.addHistory s d).getCurrentState = some s := by
  obtain ⟨l, hl⟩ := addHistory_history_concat st s d hm
  have hlen : (st.addHistory s d).history.length = l.length + 1 := by
    rw [hl]
    simp
  have hidx := addHistory_currentIndex st s d
  unfold HistoryStore.getCurrentState
  rw [if_pos (by rw [hidx, hlen]; constructor <;> [omega; omega])]
  have htn : (st.addHistory s d).currentIndex.toNat = l.length := by
    rw [hidx, hlen]
    omega
  rw [htn, hl, List.get?_concat_length]
  rfl

lemma kdSpaceStep_hist (e : KeyEvent) (st : CanvasState) :
    (kdSpaceStep e st).hist = st.hist := by
  unfold kdSpaceStep
  split <;> rfl

lemma kdEscapeStep_hist (e : KeyEvent) (st : CanvasState) :
    (kdEscapeStep e st).hist = st.hist := by
  unfold kdEscapeStep
  split <;> rfl

lemma kdUndoStep_noop (e : KeyEvent) (st : CanvasState)
    (h : ¬(e.ctrlKey = true ∧ e.key = "z")) : kdUndoStep e st = st := by
  unfold kdUndoStep
  rw [if_neg h]

lemma kdRedoStep_noop (e : KeyEvent) (st : CanvasState)
    (h : ¬(e.ctrlKey = true ∧ e.key = "y")) : kdRedoStep e st = st := by
  unfold kdRedoStep
  rw [if_neg h]

lemma keydown_delete_effect (e : KeyEvent) (st : CanvasState) (sid : String)
    (hsel : st.selectedId = some sid) (hne : sid ≠ "")
    (hkey : e.key = "Delete" ∨ e.key = "Backspace") :
    (handleKeyboardDown e st).shapes = st.shapes.filter (fun s => s.id ≠ sid) ∧
    (handleKeyboardDown e st).annotations
      = st.annotations.filter (fun a => a.shapeId ≠ sid) ∧
    (handleKeyboardDown e st).selectedId = none ∧
    (handleKeyboardDown e st).hist
      = st.hist.addHistory
          ⟨st.shapes.filter (fun s => s.id ≠ sid),
           st.annotations.filter (fun a => a.shapeId ≠ sid)⟩
          ("删除形状 #" ++ sid) := by
  have hz : ¬(e.ctrlKey = true ∧ e.key = "z") := by
    rintro ⟨-, hk⟩
    rcases hkey with h | h <;> rw [h] at hk <;> exact absurd hk (by decide)
  have hy : ¬(e.ctrlKey = true ∧ e.key = "y") := by
    rintro ⟨-, hk⟩
    rcases hkey with h | h <;> rw [h] at hk <;> exact absurd hk (by decide)
  have hdel : (e.key = "Delete" ∨ e.key = "Backspace") ∧
      optStringTruthy st.selectedId = true := by
    refine ⟨hkey, ?_⟩
    rw [hsel]
    simp [optStringTruthy, hne]
  unfold handleKeyboardDown
  rw [kdUndoStep_noop e _ hz, kdRedoStep_noop e _ hy]
  unfold kdDeleteStep
  rw [if_pos hdel]
  simp only [hsel, Option.getD_some]
  exact ⟨trivial, trivial, trivial, by rw [kdEscapeStep_hist, kdSpaceStep_hist]⟩

/-- C8: for every state with a selected shape id, Delete/Backspace removes
the shape with that id, removes every annotation whose `shapeId` is that
id (no orphaned annotation survives), clears the selection, and pushes
exactly one history entry whose snapshot is the pruned document (which is
then the store's current state). -/
theorem delete_removes_shape_annotations_and_records (e : KeyEvent) (st : CanvasState)
    (sid : String) (hsel : st.selectedId = some sid) (hne : sid ≠ "")
    (hkey : e.key = "Delete" ∨ e.key = "Backspace")
    (hm : 1 ≤ st.hist.maxHistorySize) :
    (handleKeyboardDown e st).shapes = st.shapes.filter (fun s => s.id ≠ sid) ∧
    (handleKeyboardDown e st).annotations
      = st.annotations.filter (fun a => a.shapeId ≠ sid) ∧
    (∀ a ∈ (handleKeyboardDown e st).annotations, a.shapeId ≠ sid) ∧
    (handleKeyboardDown e st).selectedId = none ∧
    (handleKeyboardDown e st).hist
      = st.hist.addHistory
          ⟨st.shapes.filter (fun s => s.id ≠ sid),
           st.annotations.filter (fun a => a.shapeId ≠ sid)⟩
          ("删除形状 #" ++ sid) ∧
    (handleKeyboardDown e st).hist.history.length
      = (st.hist.addHistory
          ⟨st.shapes.filter (fun s => s.id ≠ sid),
           st.annotations.filter (fun a => a.shapeId ≠ sid)⟩
          ("删除形状 #" ++ sid)).history.length ∧
    (handleKeyboardDown e st).hist.getCurrentState
      = some ⟨st.shapes.filter (fun s => s.id ≠ sid),
              st.annotations.filter (fun a => a.shapeId ≠ sid)⟩ := by
  obtain ⟨h1, h2, h3, h4⟩ := keydown_delete_effect e st sid hsel hne hkey
  refine ⟨h1, h2, ?_, h3, h4, by rw [h4], ?_⟩
  · intro a ha
    rw [h2] at ha
    have := List.mem_filter.mp ha
    exact of_decide_eq_true this.2
  · rw [h4]
    exact getCurrentState_addHistory _ _ _ hm

/-- The concrete document used to exercise the delete branch: two
rectangles with one annotation each, shape "a" selected. -/
def exDeleteState : CanvasState :=
  { shapes := [{ id := "a", type := "rectangle", x := 0, y := 0,
                 stroke := "s", strokeWidth := 1, fill := "f", draggable := true },
               { id := "b", type := "rectangle", x := 5, y := 5,
                 stroke := "s", strokeWidth := 1, fill := "f", draggable := true }],
    annotations := [{ points := [1, 2], shapeId := "a" },
                    { points := [3, 4], shapeId := "b" }],
    selectedId := some "a", activeTool := "select" }

/-- C8 witness: deleting selected shape "a" from the concrete document
removes it together with its annotation and clears the selection. -/
theorem delete_removes_shape_annotations_and_records_check :
    (handleKeyboardDown { code := "Delete", key := "Delete" } exDeleteState).shapes.map
        (fun s => s.id) = ["b"] ∧
    (handleKeyboardDown { code := "Delete", key := "Delete" } exDeleteState).annotations.map
        (fun a => a.shapeId) = ["b"] ∧
    (handleKeyboardDown { code := "Delete", key := "Delete" } exDeleteState).selectedId
      = none := by
  have h := delete_removes_shape_annotations_and_records
    { code := "Delete", key := "Delete" } exDeleteState "a" rfl (by decide)
    (Or.inl rfl) (by decide)
  refine ⟨?_, ?_, h.2.2.2.1⟩
  · rw [h.1]
    decide
  · rw [h.2.1]
    decide

lemma kdSpaceStep_editing (e : KeyEvent) (st : CanvasState) (t : Option String) :
    kdSpaceStep e { st with editingText := t }
      = { kdSpaceStep e st with editingText := t } := by
  unfold kdSpaceStep
  split <;> rfl

lemma kdEscapeStep_editing (e : KeyEvent) (st : CanvasState) (t : Option String) :
    kdEscapeStep e { st with editingText := t }
      = { kdEscapeStep e st with editingText := t } := by
  unfold kdEscapeStep
  split <;> rfl

lemma handleUndo_editing (st : CanvasState) (t : Option String) :
    handleUndo { st with editingText := t }
      = { handleUndo st with editingText := t } := by
  unfold handleUndo
  dsimp only
  rcases h : st.hist.undo with ⟨h1, o1⟩
  cases o1 <;> rfl

lemma handleRedo_editing (st : CanvasState) (t : Option String) :
    handleRedo { st with editingText := t }
      = { handleRedo st with editingText := t } := by
  unfold handleRedo
  dsimp only
  rcases h : st.hist.redo with ⟨h1, o1⟩
  cases o1 <;> rfl

lemma kdUndoStep_editing (e : KeyEvent) (st : CanvasState) (t : Option String) :
    kdUndoStep e { st with editingText := t }
      = { kdUndoStep e st with editingText := t } := by
  unfold kdUndoStep
  split
  · exact handleUndo_editing st t
  · rfl

lemma kdRedoStep_editing (e : KeyEvent) (st : CanvasState) (t : Option String) :
    kdRedoStep e { st with editingText := t }
      = { kdRedoStep e st with editingText := t } := by
  unfold kdRedoStep
  split
  · exact handleRedo_editing st t
  · rfl

lemma kdDeleteStep_editing (e : KeyEvent) (shapes0 : List ShapeProps)
    (annotations0 : List AnnotationProps) (selectedId0 : Option String)
    (st : CanvasState) (t : Option String) :
    kdDeleteStep e shapes0 annotations0 selectedId0 { st with editingText := t }
      = { kdDeleteStep e shapes0 annotations0 selectedId0 st with editingText := t } := by
  unfold kdDeleteStep
  split <;> rfl

/-- C10: in the global keydown handler the Escape / Ctrl+Z / Ctrl+Y /
Delete branches all execute before the text-editing guard (the
`if (editingText !== null) return` is the handler's final statement): the
handler's result is completely independent of `editingText` (which it
also never changes), and in particular Delete/Backspace with a selection
removes the shape and its annotations even while a text-editing session
is active. -/
theorem keydown_ignores_editing_guard :
    (∀ (e : KeyEvent) (st : CanvasState) (t : Option String),
       handleKeyboardDown e { st with editingText := t }
         = { handleKeyboardDown e st with editingText := t }) ∧
    (∀ (e : KeyEvent) (st : CanvasState) (sid txt : String),
       st.editingText = some txt → st.selectedId = some sid → sid ≠ "" →
       (e.key = "Delete" ∨ e.key = "Backspace") →
       (handleKeyboardDown e st).shapes = st.shapes.filter (fun s => s.id ≠ sid) ∧
       (handleKeyboardDown e st).annotations
         = st.annotations.filter (fun a => a.shapeId ≠ sid) ∧
       (handleKeyboardDown e st).editingText = some txt) := by
  have hmain : ∀ (e : KeyEvent) (st : CanvasState) (t : Option String),
      handleKeyboardDown e { st with editingText := t }
        = { handleKeyboardDown e st with editingText := t } := by
    intro e st t
    unfold handleKeyboardDown
    rw [kdSpaceStep_editing, kdEscapeStep_editing, kdUndoStep_editing, kdRedoStep_editing]
    exact kdDeleteStep_editing e st.shapes st.annotations st.selectedId _ t
  refine ⟨hmain, ?_⟩
  intro e st sid txt hedit hsel hne hkey
  obtain ⟨h1, h2, -, -⟩ := keydown_delete_effect e st sid hsel hne hkey
  refine ⟨h1, h2, ?_⟩
  -- by structure eta, `st = { st with editingText := st.editingText }`, so the
  -- independence part gives preservation of `editingText`
  have h4 := hmain e st st.editingText
  have h5 : handleKeyboardDown e { st with editingText := st.editingText }
      = handleKeyboardDown e st := rfl
  rw [h5] at h4
  have h3 : (handleKeyboardDown e st).editingText = st.editingText := by
    rw [h4]
  rw [h3, hedit]

/-- C10 witness: with a text-editing session active (`editingText` set),
Delete still removes the selected shape and its annotation. -/
theorem keydown_ignores_editing_guard_check :
    (handleKeyboardDown { code := "Delete", key := "Delete" }
        { exDeleteState with editingText := some "a" }).shapes.map (fun s => s.id)
      = ["b"] ∧
    (handleKeyboardDown { code := "Delete", key := "Delete" }
        { exDeleteState with editingText := some "a" }).annotations.map
        (fun a => a.shapeId) = ["b"] := by
  have h := keydown_ignores_editing_guard.2 { code := "Delete", key := "Delete" }
    { exDeleteState with editingText := some "a" } "a" "a" rfl rfl (by decide)
    (Or.inl rfl)
  refine ⟨?_, ?_⟩
  · rw [h.1]
    decide
  · rw [h.2.1]
    decide

/-! ## Theorems about the snapping subsystem (C6) -/

/-- A committed rectangle whose right edge sits at `x = 110`. -/
def exRectOther : ShapeProps :=
  { id := "other", type := "rectangle", x := 60, y := 200, width := some 50,
    height := some 30, stroke := "#000", strokeWidth := 2, fill := "transparent",
    draggable := true }

/-- The rectangle being drawn from `(50, 50)`. -/
def exRectCur : ShapeProps :=
  { id := "cur", type := "rectangle", x := 50, y := 50, width := some 0,
    height := some 0, stroke := "#000", strokeWidth := 2, fill := "transparent",
    draggable := true }

/-- Drawing session: dragging rectangle "cur" with the pointer at `x = 109`
next to the other rectangle's right edge at `x = 110`. -/
def exSnapRectState : CanvasState :=
  { shapes := [exRectOther, exRectCur], isDrawing := true,
    startPoint := some ⟨50, 50⟩, currentShapeId := some "cur",
    activeTool := "rectangle" }

/-- C6 counterexample: with the pointer at `(109, 300)` the snap engine
does record the candidate `x = 110` (within the threshold), but the
rectangle being drawn is updated from the RAW pointer coordinate: its
right edge ends at `109`, not `110` — the claim's rectangle example
fails on the code. -/
theorem rect_snap_not_applied_cex :
    (computeSnap exSnapRectState.shapes "cur" 109 300 800 600).snapToX = some 110 ∧
    ((handleMouseMove ⟨109, 300⟩ exSnapRectState).shapes.find?
        (fun s => s.id = "cur")).map (fun s => s.x + s.width.getD 0) = some 109 ∧
    ((handleMouseMove ⟨109, 300⟩ exSnapRectState).shapes.find?
        (fun s => s.id = "cur")).map (fun s => s.x + s.width.getD 0) ≠ some 110 := by
  refine ⟨?_, ?_, ?_⟩
  · norm_num +decide [computeSnap, snapAgainstShape, mathAbs, alignmentThreshold,
      exSnapRectState, exRectOther, exRectCur]
  · norm_num +decide [handleMouseMove, computeSnap, snapAgainstShape, mathAbs, mathMin,
      alignmentThreshold, activeControlPointIndex, moveShapeUpdate, guidesForShape,
      exSnapRectState, exRectOther, exRectCur]
  · norm_num +decide [handleMouseMove, computeSnap, snapAgainstShape, mathAbs, mathMin,
      alignmentThreshold, activeControlPointIndex, moveShapeUpdate, guidesForShape,
      exSnapRectState, exRectOther, exRectCur]

/-- C6 amended: during drawing, the within-threshold candidate coordinate
replaces the in-progress coordinate only in the line/polygon branch (the
segment endpoint becomes the snapped coordinate); the rectangle branch
uses the raw pointer coordinates for position and size regardless of any
candidate (only the alignment guide is emitted). -/
theorem snap_replaces_coordinate_only_for_line (st : CanvasState) (pos sp : Point)
    (cid : String)
    (hsc : ¬(st.isSpacePressed = true ∧ st.mouseCaptured = true))
    (hd : st.isDrawing = true)
    (hsp : st.startPoint = some sp)
    (hcid : st.currentShapeId = some cid) :
    (∀ s ∈ st.shapes, s.id = cid → (s.type = "line" ∨ s.type = "polygon") →
      ∃ s' ∈ (handleMouseMove pos st).shapes, s'.id = cid ∧
        s'.points = some [sp.x, sp.y,
          (computeSnap st.shapes cid pos.x pos.y st.canvasWidth
            st.canvasHeight).snapToX.getD pos.x,
          (computeSnap st.shapes cid pos.x pos.y st.canvasWidth
            st.canvasHeight).snapToY.getD pos.y]) ∧
    (∀ s ∈ st.shapes, s.id = cid → s.type = "rectangle" →
      ∃ s' ∈ (handleMouseMove pos st).shapes, s'.id = cid ∧
        s'.x = mathMin sp.x pos.x ∧ s'.y = mathMin sp.y pos.y ∧
        s'.width = some (mathAbs (pos.x - sp.x)) ∧
        s'.height = some (mathAbs (pos.y - sp.y))) := by
  have hshapes : (handleMouseMove pos st).shapes
      = st.shapes.map (moveShapeUpdate cid sp pos.x pos.y
          ((computeSnap st.shapes cid pos.x pos.y st.canvasWidth
            st.canvasHeight).snapToX.getD pos.x)
          ((computeSnap st.shapes cid pos.x pos.y st.canvasWidth
            st.canvasHeight).snapToY.getD pos.y)) := by
    unfold handleMouseMove
    rw [if_neg hsc, hsp, hcid, hd]
    simp [activeControlPointIndex]
  constructor
  · intro s hs hid htype
    refine ⟨moveShapeUpdate cid sp pos.x pos.y
        ((computeSnap st.shapes cid pos.x pos.y st.canvasWidth
          st.canvasHeight).snapToX.getD pos.x)
        ((computeSnap st.shapes cid pos.x pos.y st.canvasWidth
          st.canvasHeight).snapToY.getD pos.y) s, ?_, ?_⟩
    · rw [hshapes]
      exact List.mem_map_of_mem _ hs
    · unfold moveShapeUpdate
      rw [if_neg (by simp [hid])]
      rcases htype with h | h <;> rw [h] <;> simp <;> exact hid
  · intro s hs hid htype
    refine ⟨moveShapeUpdate cid sp pos.x pos.y
        ((computeSnap st.shapes cid pos.x pos.y st.canvasWidth
          st.canvasHeight).snapToX.getD pos.x)
        ((computeSnap st.shapes cid pos.x pos.y st.canvasWidth
          st.canvasHeight).snapToY.getD pos.y) s, ?_, ?_⟩
    · rw [hshapes]
      exact List.mem_map_of_mem _ hs
    · unfold moveShapeUpdate
      rw [if_neg (by simp [hid]), if_pos htype]
      exact ⟨hid, rfl, rfl, rfl, rfl⟩

/-- The line segment being drawn from `(50, 50)`. -/
def exLineCur : ShapeProps :=
  { id := "cur", type := "line", x := 0, y := 0, points := some [50, 50, 50, 50],
    stroke := "#000", strokeWidth := 2, fill := "transparent", draggable := true }

/-- Drawing session: dragging line "cur" with the pointer at `x = 109`
next to the other rectangle's right edge at `x = 110`. -/
def exSnapLineState : CanvasState :=
  { shapes := [exRectOther, exLineCur], isDrawing := true,
    startPoint := some ⟨50, 50⟩, currentShapeId := some "cur",
    activeTool := "line" }

/-- C6 amended witness: for the line being drawn, the endpoint does snap
exactly onto the candidate `x = 110`. -/
theorem snap_replaces_coordinate_only_for_line_check :
    ∃ s' ∈ (handleMouseMove ⟨109, 300⟩ exSnapLineState).shapes,
      s'.id = "cur" ∧ s'.points = some [50, 50, 110, 300] := by
  have h := (snap_replaces_coordinate_only_for_line exSnapLineState ⟨109, 300⟩
      ⟨50, 50⟩ "cur" (by decide) rfl rfl rfl).1 exLineCur
      (by simp [exSnapLineState]) rfl (Or.inl rfl)
  obtain ⟨s', hmem, hid, hpts⟩ := h
  refine ⟨s', hmem, hid, ?_⟩
  rw [hpts]
  norm_num +decide [computeSnap, snapAgainstShape, mathAbs, alignmentThreshold,
    exSnapLineState, exRectOther, exLineCur]

/-! ## Theorems about the small-shape rejection on pointer-up (C9) -/

lemma mouseUpLineBranch_shapes (st0 : CanvasState) (cid : String) (st : CanvasState) :
    (mouseUpLineBranch st0 cid st).shapes = st.shapes := by
  unfold mouseUpLineBranch
  rfl

lemma mouseUpTailBranch_shapes (st0 : CanvasState) (cid : String) (st : CanvasState) :
    (mouseUpTailBranch st0 cid st).shapes = st.shapes := by
  unfold mouseUpTailBranch recordHistory
  dsimp only
  split
  · split <;> rfl
  · rfl

lemma polygonCloseBranch_shapes (st0 : CanvasState) (cid : String) (cs : ShapeProps)
    (pts : List ℚ) (st : CanvasState) :
    (polygonCloseBranch st0 cid cs pts st).shapes
      = st.shapes.map (fun s : ShapeProps =>
          if s.id = cid then
            { cs with points := some [pts.getD 0 0, pts.getD 1 0,
                st0.linePoints.getD 0 0, st0.linePoints.getD 1 0] }
          else s) := by
  unfold polygonCloseBranch
  rfl

lemma polygonContinueBranch_shapes (st0 : CanvasState) (cid : String) (cs : ShapeProps)
    (ex ey : ℚ) (st : CanvasState) :
    ∃ nl, (polygonContinueBranch st0 cid cs ex ey st).shapes = st0.shapes ++ [nl] := by
  unfold polygonContinueBranch
  dsimp only
  exact ⟨_, rfl⟩

lemma polygonContinueBranch_mem (st0 : CanvasState) (cid : String) (cs : ShapeProps)
    (ex ey : ℚ) (st : CanvasState) (s : ShapeProps) (hs : s ∈ st0.shapes) :
    s ∈ (polygonContinueBranch st0 cid cs ex ey st).shapes := by
  unfold polygonContinueBranch
  dsimp only
  exact List.mem_append_left _ hs

/-- Membership of the drawn shape's image in the draggable-map write. -/
lemma mem_draggable_map (l : List ShapeProps) (cid : String) (s : ShapeProps)
    (hs : s ∈ l) (hid : s.id = cid) :
    ∃ s' ∈ l.map (fun s : ShapeProps =>
        if s.id = cid then { s with draggable := true } else s), s'.id = cid := by
  refine ⟨if s.id = cid then { s with draggable := true } else s,
    List.mem_map_of_mem _ hs, ?_⟩
  rw [if_pos hid]
  exact hid

/-- C9: the accidental-click rejection applies only to the rectangle and
circle tools; a rectangle is discarded only when width AND height are both
below 5 (so a 2×100 rectangle is committed), a circle only when its
radius is below 5, and every other tool's shape survives pointer-up. -/
theorem small_shape_discard_scope (pos : Point) (st : CanvasState) (sp : Point)
    (cid : String) (sh : ShapeProps)
    (hsc : ¬(st.isSpacePressed = true ∧ st.mouseCaptured = true))
    (hd : st.isDrawing = true)
    (hsp : st.startPoint = some sp)
    (hcid : st.currentShapeId = some cid)
    (hfind : st.shapes.find? (fun s => s.id = cid) = some sh) :
    ((st.activeTool = "rectangle" ∨ st.activeTool = "circle") →
      ((sh.type = "rectangle" ∧ sh.width.getD 0 < 5 ∧ sh.height.getD 0 < 5) ∨
        (sh.type = "circle" ∧ sh.radius.getD 0 < 5)) →
      ∀ s' ∈ (handleMouseUp pos st).shapes, s'.id ≠ cid) ∧
    ((st.activeTool = "rectangle" ∨ st.activeTool = "circle") →
      ¬((sh.type = "rectangle" ∧ sh.width.getD 0 < 5 ∧ sh.height.getD 0 < 5) ∨
          (sh.type = "circle" ∧ sh.radius.getD 0 < 5)) →
      ∃ s' ∈ (handleMouseUp pos st).shapes, s'.id = cid) ∧
    (st.activeTool ≠ "rectangle" → st.activeTool ≠ "circle" →
      ∃ s' ∈ (handleMouseUp pos st).shapes, s'.id = cid) := by
  have hmem : sh ∈ st.shapes := List.mem_of_find?_eq_some hfind
  have hid : sh.id = cid := by
    have := List.find?_some hfind
    exact of_decide_eq_true this
  have hphase : handleMouseUp pos st
      = mouseUpDrawPhase pos st sp cid { st with mouseCaptured := false } := by
    unfold handleMouseUp
    rw [if_neg hsc, hsp, hcid, hd]
    rfl
  rw [hphase]
  unfold mouseUpDrawPhase
  rw [hfind]
  dsimp only
  refine ⟨?_, ?_, ?_⟩
  · intro htool hsmall
    rw [if_pos (by unfold smallShapeDiscard; exact decide_eq_true ⟨htool, hsmall⟩)]
    intro s' hs'
    dsimp only at hs'
    have := (List.mem_filter.mp hs').2
    exact of_decide_eq_true this
  · intro htool hsmall
    rw [if_neg (by
      unfold smallShapeDiscard
      simp only [decide_eq_true_eq]
      rintro ⟨-, h2⟩
      exact hsmall h2)]
    have hnotpoly : ¬(st.activeTool = "polygon") := by
      rcases htool with h | h <;> rw [h] <;> decide
    have hnotline : ¬(st.activeTool = "line") := by
      rcases htool with h | h <;> rw [h] <;> decide
    rw [if_neg hnotpoly, if_neg hnotline]
    rw [mouseUpTailBranch_shapes]
    exact mem_draggable_map st.shapes cid sh hmem hid
  · intro hr hc
    by_cases hdisc : smallShapeDiscard st.activeTool (some sh) = true
    · exfalso
      unfold smallShapeDiscard at hdisc
      rcases (of_decide_eq_true hdisc).1 with h | h <;> [exact hr h; exact hc h]
    · rw [if_neg hdisc]
      by_cases hpoly : st.activeTool = "polygon"
      · rw [if_pos hpoly]
        cases hpts : sh.points with
        | none =>
          rw [mouseUpTailBranch_shapes]
          exact mem_draggable_map st.shapes cid sh hmem hid
        | some pts =>
          unfold polygonMouseUpBranch
          dsimp only
          split
          · rw [polygonCloseBranch_shapes]
            obtain ⟨s', hs', hid'⟩ := mem_draggable_map st.shapes cid sh hmem hid
            refine ⟨if s'.id = cid then
                { sh with points := some [pts.getD 0 0, pts.getD 1 0,
                    st.linePoints.getD 0 0, st.linePoints.getD 1 0] }
              else s', List.mem_map_of_mem _ hs', ?_⟩
            rw [if_pos hid']
            exact hid
          · exact ⟨sh, polygonContinueBranch_mem _ _ _ _ _ _ sh hmem, hid⟩
      · rw [if_neg hpoly]
        by_cases hline : st.activeTool = "line"
        · rw [if_pos hline, mouseUpLineBranch_shapes]
          exact mem_draggable_map st.shapes cid sh hmem hid
        · rw [if_neg hline, mouseUpTailBranch_shapes]
          exact mem_draggable_map st.shapes cid sh hmem hid

/-- A 2×1 rectangle (below the 5-unit minimum in both dimensions). -/
def exSmallRect : ShapeProps :=
  { id := "cur", type := "rectangle", x := 10, y := 10, width := some 2,
    height := some 1, stroke := "#000", strokeWidth := 2, fill := "transparent",
    draggable := true }

/-- A 2×100 rectangle (narrow but tall). -/
def exThinRect : ShapeProps :=
  { id := "cur", type := "rectangle", x := 10, y := 10, width := some 2,
    height := some 100, stroke := "#000", strokeWidth := 2, fill := "transparent",
    draggable := true }

/-- Pointer-up session state drawing `sh` with the rectangle tool. -/
def exUpState (sh : ShapeProps) : CanvasState :=
  { shapes := [sh], isDrawing := true, startPoint := some ⟨10, 10⟩,
    currentShapeId := some "cur", activeTool := "rectangle" }

/-- C9 witness: the 2×1 rectangle is discarded on pointer-up while the
2×100 rectangle (only one dimension below 5) is committed. -/
theorem small_shape_discard_scope_check :
    (∀ s' ∈ (handleMouseUp ⟨12, 11⟩ (exUpState exSmallRect)).shapes, s'.id ≠ "cur") ∧
    (∃ s' ∈ (handleMouseUp ⟨12, 110⟩ (exUpState exThinRect)).shapes, s'.id = "cur") := by
  constructor
  · exact (small_shape_discard_scope ⟨12, 11⟩ (exUpState exSmallRect) ⟨10, 10⟩ "cur"
      exSmallRect (by decide) rfl rfl rfl rfl).1 (Or.inl rfl)
      (Or.inl ⟨rfl, by decide, by decide⟩)
  · exact (small_shape_discard_scope ⟨12, 110⟩ (exUpState exThinRect) ⟨10, 10⟩ "cur"
      exThinRect (by decide) rfl rfl rfl rfl).2.1 (Or.inl rfl)
      (by decide)

/-! ## Theorems about closing a continuous polygon (C5) -/

lemma handleMouseUp_drawPhase (pos : Point) (st : CanvasState) (sp : Point) (cid : String)
    (hsc : ¬(st.isSpacePressed = true ∧ st.mouseCaptured = true))
    (hd : st.isDrawing = true)
    (hsp : st.startPoint = some sp)
    (hcid : st.currentShapeId = some cid) :
    handleMouseUp pos st
      = mouseUpDrawPhase pos st sp cid { st with mouseCaptured := false } := by
  unfold handleMouseUp
  rw [if_neg hsc, hsp, hcid, hd]
  rfl

/-- C5 amended: the pointer-up close test compares the current segment's
stored endpoint against `linePoints[0..1]`.  Because the pointer-down
origin of the chain is never appended to `linePoints` — the only append
is `setLinePoints([...linePoints, lineEndX, lineEndY])`, which stores
segment endpoints, and on the first pointer-up `continuousDrawing` is
still false — that anchor is the endpoint of the FIRST DRAWN SEGMENT,
i.e. the chain's second vertex, not its first.  When the stored endpoint
is within 15 canvas units of that anchor, the last segment's endpoint is
set exactly to the anchor's coordinates and the session leaves
continuous-drawing mode with NO closing Joint added (the joints list is
unchanged).  Otherwise — in particular when the release is near the
chain's true first vertex, as in the spec's example — the session stays
in continuous-drawing mode and a regular Joint is added at the segment
endpoint. -/
theorem polygon_close_anchored_at_second_vertex :
    (∀ (pos : Point) (st : CanvasState) (sp : Point) (cid : String) (sh : ShapeProps)
       (p0 p1 p2 p3 fx fy : ℚ) (rest : List ℚ),
       ¬(st.isSpacePressed = true ∧ st.mouseCaptured = true) →
       st.isDrawing = true →
       st.startPoint = some sp →
       st.currentShapeId = some cid →
       st.activeTool = "polygon" →
       st.shapes.find? (fun s => s.id = cid) = some sh →
       sh.points = some [p0, p1, p2, p3] →
       st.continuousDrawing = true →
       st.linePoints = fx :: fy :: rest →
       (p2 - fx) ^ 2 + (p3 - fy) ^ 2 < 225 →
       ((handleMouseUp pos st).continuousDrawing = false ∧
        (handleMouseUp pos st).isDrawing = false ∧
        (handleMouseUp pos st).currentShapeId = none ∧
        (handleMouseUp pos st).linePoints = [] ∧
        (handleMouseUp pos st).joints = st.joints ∧
        (∃ s' ∈ (handleMouseUp pos st).shapes, s'.id = cid ∧
          s'.points = some [p0, p1, fx, fy]))) ∧
    (∀ (pos : Point) (st : CanvasState) (sp : Point) (cid : String) (sh : ShapeProps)
       (p0 p1 p2 p3 fx fy : ℚ) (rest : List ℚ),
       ¬(st.isSpacePressed = true ∧ st.mouseCaptured = true) →
       st.isDrawing = true →
       st.startPoint = some sp →
       st.currentShapeId = some cid →
       st.activeTool = "polygon" →
       st.shapes.find? (fun s => s.id = cid) = some sh →
       sh.points = some [p0, p1, p2, p3] →
       st.continuousDrawing = true →
       st.linePoints = fx :: fy :: rest →
       ¬((p2 - fx) ^ 2 + (p3 - fy) ^ 2 < 225) →
       ((handleMouseUp pos st).continuousDrawing = true ∧
        (handleMouseUp pos st).isDrawing = true ∧
        (∃ nid, (handleMouseUp pos st).currentShapeId = some nid) ∧
        (∃ j, (handleMouseUp pos st).joints = st.joints ++ [j] ∧
          j.x = p2 ∧ j.y = p3))) := by
  constructor
  · intro pos st sp cid sh p0 p1 p2 p3 fx fy rest hsc hd hsp hcid htool hfind hpts
      hcont hlp hclose
    have hmem : sh ∈ st.shapes := List.mem_of_find?_eq_some hfind
    have hid : sh.id = cid := by
      have := List.find?_some hfind
      exact of_decide_eq_true this
    have hnotsmall : ¬(smallShapeDiscard "polygon" (some sh) = true) := by
      unfold smallShapeDiscard
      simp only [decide_eq_true_eq]
      rintro ⟨h1, -⟩
      rcases h1 with h | h <;> exact absurd h (by decide)
    rw [handleMouseUp_drawPhase pos st sp cid hsc hd hsp hcid]
    unfold mouseUpDrawPhase
    rw [hfind]
    dsimp only
    rw [htool, if_neg hnotsmall, if_pos rfl, hpts]
    dsimp only
    unfold polygonMouseUpBranch
    dsimp only
    split
    · -- the closing sub-branch
      unfold polygonCloseBranch
      dsimp only
      refine ⟨rfl, rfl, rfl, rfl, rfl, ?_⟩
      obtain ⟨s', hs', hid'⟩ := mem_draggable_map st.shapes cid sh hmem hid
      refine ⟨if s'.id = cid then
          { sh with points := some [List.getD [p0, p1, p2, p3] 0 0,
              List.getD [p0, p1, p2, p3] 1 0,
              st.linePoints.getD 0 0, st.linePoints.getD 1 0] }
        else s', List.mem_map_of_mem _ hs', ?_⟩
      rw [if_pos hid']
      refine ⟨hid, ?_⟩
      rw [hlp]
      simp
    · -- the closing condition cannot fail under the hypotheses
      rename_i hfail
      exfalso
      apply hfail
      refine ⟨hcont, ?_, ?_⟩
      · rw [hlp]
        simp
      · rw [hlp]
        simpa using hclose
  · intro pos st sp cid sh p0 p1 p2 p3 fx fy rest hsc hd hsp hcid htool hfind hpts
      hcont hlp hno
    have hmem : sh ∈ st.shapes := List.mem_of_find?_eq_some hfind
    have hid : sh.id = cid := by
      have := List.find?_some hfind
      exact of_decide_eq_true this
    have hnotsmall : ¬(smallShapeDiscard "polygon" (some sh) = true) := by
      unfold smallShapeDiscard
      simp only [decide_eq_true_eq]
      rintro ⟨h1, -⟩
      rcases h1 with h | h <;> exact absurd h (by decide)
    rw [handleMouseUp_drawPhase pos st sp cid hsc hd hsp hcid]
    unfold mouseUpDrawPhase
    rw [hfind]
    dsimp only
    rw [htool, if_neg hnotsmall, if_pos rfl, hpts]
    dsimp only
    unfold polygonMouseUpBranch
    dsimp only
    split
    · -- the closing condition cannot hold under the hypotheses
      rename_i hcondT
      exfalso
      apply hno
      have h3 := hcondT.2.2
      rw [hlp] at h3
      simpa using h3
    · -- the continuation sub-branch
      unfold polygonContinueBranch
      dsimp only
      rw [if_pos (show 2 ≤ st.linePoints.length by
        rw [hlp]
        simp only [List.length_cons]
        omega)]
      refine ⟨rfl, rfl, ⟨_, rfl⟩, ⟨_, rfl, ?_, ?_⟩⟩
      · rfl
      · rfl

/-- First committed polygon segment `(0,0)→(50,0)`. -/
def exPolySeg1 : ShapeProps :=
  { id := "s1", type := "line", x := 0, y := 0, points := some [0, 0, 50, 0],
    stroke := "#000", strokeWidth := 2, fill := "transparent", draggable := true }

/-- Second committed polygon segment `(50,0)→(50,50)`. -/
def exPolySeg2 : ShapeProps :=
  { id := "s2", type := "line", x := 0, y := 0, points := some [50, 0, 50, 50],
    stroke := "#000", strokeWidth := 2, fill := "transparent", draggable := true }

/-- The regular Joint placed at `(50,50)` by the second pointer-up
(radius = strokeWidth 2 × 0.4). -/
def exPolyChainJoint : JointProps :=
  { id := "j1", x := 50, y := 50, radius := 4/5, fill := "#000", stroke := "#000" }

/-- The in-progress third segment.  Its stored endpoint is `(0,0)` — the
chain's FIRST vertex — as produced by the last mouse-move: moving towards
`(5,3)`, the endpoint snaps onto the `(0,0)` endpoint of the first
segment (both axes within the 10-unit threshold). -/
def exPolyChainCur : ShapeProps :=
  { id := "cur", type := "line", x := 0, y := 0, points := some [50, 50, 0, 0],
    stroke := "#000", strokeWidth := 2, fill := "transparent", draggable := true }

/-- The continuous-drawing session for the spec's example chain
`(0,0)→(50,0)→(50,50)`, right before the third pointer-up at `(5,3)`.
Each field is what the handler sequence produces: `linePoints` holds only
the appended segment endpoints `[50,0, 50,50]` (the pointer-down origin
`(0,0)` is never appended; the first pointer-up runs with
`continuousDrawing` still false and appends only `(50,0)`), one regular
Joint exists at `(50,50)` (added by the second pointer-up, whose captured
`linePoints` already had length 2), and the current segment's endpoint is
the mouse-move-snapped `(0,0)`.  Measurement annotations/guidelines are
left empty: no branch condition reads them. -/
def exPolyChainState : CanvasState :=
  { shapes := [exPolySeg1, exPolySeg2, exPolyChainCur], isDrawing := true,
    startPoint := some ⟨50, 50⟩, currentShapeId := some "cur",
    activeTool := "polygon", continuousDrawing := true,
    linePoints := [50, 0, 50, 50],
    lineSegments := [exPolySeg1, exPolySeg2],
    joints := [exPolyChainJoint] }

/-- C5 counterexample: in the spec's own scenario the current segment's
endpoint is exactly the chain's first vertex `(0,0)` (distance 0, well
within 15 units), yet pointer-up does NOT close the polygon: the close
test anchors at `linePoints[0..1] = (50,0)` (the second vertex, distance
50), so the session stays in continuous-drawing mode, a new segment is
started, the endpoint is appended to `linePoints`, and a regular Joint is
added at the release point — contradicting the claimed snap-and-exit with
one closing Joint. -/
theorem polygon_first_vertex_release_does_not_close_cex :
    (exPolyChainState.shapes.find? (fun s => s.id = "cur")).map (fun s => s.points)
      = some (some [50, 50, 0, 0]) ∧
    (handleMouseUp ⟨5, 3⟩ exPolyChainState).continuousDrawing = true ∧
    (handleMouseUp ⟨5, 3⟩ exPolyChainState).isDrawing = true ∧
    (handleMouseUp ⟨5, 3⟩ exPolyChainState).currentShapeId ≠ none ∧
    (handleMouseUp ⟨5, 3⟩ exPolyChainState).linePoints = [50, 0, 50, 50, 0, 0] ∧
    (handleMouseUp ⟨5, 3⟩ exPolyChainState).joints.map (fun j => (j.x, j.y))
      = [(50, 50), (0, 0)] := by
  refine ⟨by decide, ?_, ?_, ?_, ?_, ?_⟩ <;>
    norm_num +decide [handleMouseUp, mouseUpDrawPhase, polygonMouseUpBranch,
      polygonContinueBranch, smallShapeDiscard, computeSnap, snapAgainstShape,
      upShapeUpdate, guidesForShape, mathAbs, mathMin, alignmentThreshold,
      guideToAnno, generateId, exPolyChainState, exPolySeg1, exPolySeg2,
      exPolyChainCur, exPolyChainJoint]

/-- First committed segment `(0,0)→(100,0)` of the close-witness chain. -/
def exChainSeg1 : ShapeProps :=
  { id := "s1", type := "line", x := 0, y := 0, points := some [0, 0, 100, 0],
    stroke := "#000", strokeWidth := 2, fill := "transparent", draggable := true }

/-- Second committed segment `(100,0)→(100,100)` of the close-witness chain. -/
def exChainSeg2 : ShapeProps :=
  { id := "s2", type := "line", x := 0, y := 0, points := some [100, 0, 100, 100],
    stroke := "#000", strokeWidth := 2, fill := "transparent", draggable := true }

/-- The regular Joint at `(100,100)` from the second pointer-up. -/
def exChainJoint : JointProps :=
  { id := "j1", x := 100, y := 100, radius := 4/5, fill := "#000", stroke := "#000" }

/-- The in-progress third segment of the close-witness chain: moving
towards `(95,5)` snapped its endpoint onto `(100,0)` — which here is the
close anchor `linePoints[0..1]` (the chain's second vertex). -/
def exCloseCur : ShapeProps :=
  { id := "cur", type := "line", x := 0, y := 0, points := some [100, 100, 100, 0],
    stroke := "#000", strokeWidth := 2, fill := "transparent", draggable := true }

/-- Session for chain `(0,0)→(100,0)→(100,100)` about to release near the
SECOND vertex `(100,0)`: the configuration in which the pointer-up close
test actually fires. -/
def exCloseState : CanvasState :=
  { shapes := [exChainSeg1, exChainSeg2, exCloseCur], isDrawing := true,
    startPoint := some ⟨100, 100⟩, currentShapeId := some "cur",
    activeTool := "polygon", continuousDrawing := true,
    linePoints := [100, 0, 100, 100],
    lineSegments := [exChainSeg1, exChainSeg2],
    joints := [exChainJoint] }

/-- C5 amended witness: releasing onto the anchor `(100,0)` closes — the
endpoint is set exactly to `(100,0)`, the session exits, joints are
unchanged; releasing at the true first vertex `(0,0)` of the other chain
does not close — the session continues and a regular Joint appears at the
release point `(0,0)`. -/
theorem polygon_close_anchored_at_second_vertex_check :
    ((handleMouseUp ⟨95, 5⟩ exCloseState).continuousDrawing = false ∧
     (handleMouseUp ⟨95, 5⟩ exCloseState).currentShapeId = none ∧
     (handleMouseUp ⟨95, 5⟩ exCloseState).joints = exCloseState.joints ∧
     (∃ s' ∈ (handleMouseUp ⟨95, 5⟩ exCloseState).shapes, s'.id = "cur" ∧
       s'.points = some [100, 100, 100, 0])) ∧
    ((handleMouseUp ⟨5, 3⟩ exPolyChainState).continuousDrawing = true ∧
     (∃ j, (handleMouseUp ⟨5, 3⟩ exPolyChainState).joints
         = exPolyChainState.joints ++ [j] ∧ j.x = 0 ∧ j.y = 0)) := by
  constructor
  · have h := polygon_close_anchored_at_second_vertex.1 ⟨95, 5⟩ exCloseState
      ⟨100, 100⟩ "cur" exCloseCur 100 100 100 0 100 0 [100, 100]
      (by decide) rfl rfl rfl rfl rfl rfl rfl rfl (by norm_num)
    exact ⟨h.1, h.2.2.1, h.2.2.2.2.1, h.2.2.2.2.2⟩
  · have h := polygon_close_anchored_at_second_vertex.2 ⟨5, 3⟩ exPolyChainState
      ⟨50, 50⟩ "cur" exPolyChainCur 50 50 0 0 50 0 [50, 50]
      (by decide) rfl rfl rfl rfl rfl rfl rfl rfl (by norm_num)
    exact ⟨h.1, h.2.2.2⟩

end CarpetLayout
